import Mathlib

/-!
# cssa-backend: validation, lead scoring and the three HTTP handlers

A shallow embedding of `src/api/health.js`, `src/api/submit-contact.js` and
`src/api/submit-lead.js`.

Modelling conventions

* A JavaScript string is its sequence of UTF-16 code units (`JsString`), so
  `.length`, `.includes` and the regular expression see exactly what the
  engine sees.  `utf16` encodes a Lean string literal.
* `validateLeadData` is embedded on the parsed body as it comes: the four
  fields it reads (`LeadBody`) hold any value, `undefined` when absent, and
  the operators applied to them are those of the language.
* The handlers, `validateContactData` and `calculateLeadScore` are embedded on
  bodies whose fields have the types of the data model (text fields are
  strings, `programs` is an array of strings, `emergencyContact` is any
  value); every field may be absent, which is `none` (JavaScript
  `undefined`).  A request whose `body` is `undefined` or `null` has the body
  `none`; reading a field of it throws a `TypeError`.
* `/^[^\s@]+@[^\s@]+\.[^\s@]+$/` is embedded as a regular-expression term and
  run by a derivative matcher; without flags `^` and `$` anchor at both ends
  of the input, so `test` is a whole-string match.
* The record store (`notion.pages.create`) is an oracle giving the outcome of
  a call; every call issued is appended to the list `calls` of the world.
* The clock and the process environment are read from `Env`; the clock is
  read once per request.
* `Res.headers` holds the headers the handler sets with `setHeader`; what the
  runtime adds by itself (content type and length) is left out.
-/

namespace Cssa

/-! ## Strings -/

/-- A JavaScript string: a sequence of UTF-16 code units. -/
abbrev JsString := List Nat

/-- UTF-16 code units of a Unicode scalar value. -/
def utf16Char (c : Char) : List Nat :=
  if c.toNat < 65536 then [c.toNat]
  else [55296 + (c.toNat - 65536) / 1024, 56320 + (c.toNat - 65536) % 1024]

/-- UTF-16 encoding of a string literal. -/
def utf16 (s : String) : JsString :=
  s.toList.flatMap utf16Char

/-- `String.prototype.includes`: `t` occurs in `s` as a contiguous run. -/
def includes (s t : JsString) : Bool :=
  s.tails.any fun u => t.isPrefixOf u

/-! ## Regular expressions -/

/-- Regular-expression terms over code units. -/
inductive Regex where
  | never : Regex
  | epsilon : Regex
  | cls (p : Nat → Bool) : Regex
  | seq (a b : Regex) : Regex
  | alt (a b : Regex) : Regex
  | star (a : Regex) : Regex

namespace Regex

/-- One or more repetitions: `a+`. -/
def plus (a : Regex) : Regex := seq a (star a)

/-- A literal code unit. -/
def unit (c : Nat) : Regex := cls fun d => d == c

/-- Whether the term accepts the empty input. -/
def nullable : Regex → Bool
  | never => false
  | epsilon => true
  | cls _ => false
  | seq a b => a.nullable && b.nullable
  | alt a b => a.nullable || b.nullable
  | star _ => true

/-- Residual term after reading the code unit `c`. -/
def deriv (c : Nat) : Regex → Regex
  | never => never
  | epsilon => never
  | cls p => if p c then epsilon else never
  | seq a b => if a.nullable then alt (seq (a.deriv c) b) (b.deriv c) else seq (a.deriv c) b
  | alt a b => alt (a.deriv c) (b.deriv c)
  | star a => seq (a.deriv c) (star a)

/-- Whole-input match. -/
def accepts : Regex → JsString → Bool
  | r, [] => r.nullable
  | r, c :: s => (r.deriv c).accepts s

end Regex

/-- The class `\s`: white space and line terminators. -/
def isWhiteSpace (c : Nat) : Bool :=
  c == 9 || c == 10 || c == 11 || c == 12 || c == 13 || c == 32 || c == 160 ||
  c == 5760 || (8192 ≤ c && c ≤ 8202) || c == 8232 || c == 8233 || c == 8239 ||
  c == 8287 || c == 12288 || c == 65279

/-- The class `[^\s@]`. -/
def notSpaceAt (c : Nat) : Bool :=
  !(isWhiteSpace c || c == 64)

/-- The pattern `/^[^\s@]+@[^\s@]+\.[^\s@]+$/`. -/
def emailPattern : Regex :=
  .seq (.plus (.cls notSpaceAt))
    (.seq (.unit 64)
      (.seq (.plus (.cls notSpaceAt))
        (.seq (.unit 46) (.plus (.cls notSpaceAt)))))

/-- `emailPattern.test(s)` on a string. -/
def testEmail (s : JsString) : Bool :=
  emailPattern.accepts s

/-! ## Values and request bodies -/

/-- JavaScript values: the JSON values and `undefined`.  Numbers are kept as
integers. -/
inductive JsValue where
  | undefined : JsValue
  | null : JsValue
  | bool (b : Bool) : JsValue
  | number (n : Int) : JsValue
  | string (s : JsString) : JsValue
  | array (items : List JsValue) : JsValue
  | object (props : List (JsString × JsValue)) : JsValue

/-- Truthiness of a string: only `''` is falsy. -/
def truthyStr (s : JsString) : Bool :=
  !s.isEmpty

/-- Truthiness of a text field; an absent field is `undefined`. -/
def truthyText : Option JsString → Bool
  | none => false
  | some s => truthyStr s

/-- Truthiness of a value: `undefined`, `null`, `false`, `0` and `''` are
falsy. -/
def JsValue.truthy : JsValue → Bool
  | .undefined => false
  | .null => false
  | .bool b => b
  | .number n => n != 0
  | .string s => truthyStr s
  | .array _ => true
  | .object _ => true

/-- What a `throw` carries. -/
inductive JsError where
  | typeError : JsError
  | storeError (detail : JsValue) : JsError

/-! ## Conversions and operators of the language

What `validateLeadData` applies to a field that holds any value: reading
`.length`, the `<` operator against a number literal (`ToPrimitive`,
`ToNumber`, then the comparison of doubles), the string conversion done by
`RegExp.prototype.test`, `Array.isArray` and `=== 0`. -/

/-- Decimal digits of a natural number. -/
def natDigits (n : Nat) : JsString :=
  (Nat.toDigits 10 n).map Char.toNat

/-- `Number::toString` on an integer: plain decimal digits, which is how an
integer below `10 ^ 21` in magnitude is printed. -/
def numberToString : Int → JsString
  | .ofNat m => natDigits m
  | .negSucc m => 45 :: natDigits (m + 1)

/-- Whether an object has the own property `key`. -/
def hasOwn (props : List (JsString × JsValue)) (key : JsString) : Bool :=
  (props.lookup key).isSome

mutual
/-- `ToString` of a value.  An array joins its elements with `,`; an object
gives `[object Object]`, unless its own `toString` property hides the
inherited method: a JSON value is not callable, and the conversion throws. -/
def JsValue.toJsString : JsValue → Except JsError JsString
  | .undefined => .ok (utf16 "undefined")
  | .null => .ok (utf16 "null")
  | .bool b => .ok (if b then utf16 "true" else utf16 "false")
  | .number n => .ok (numberToString n)
  | .string s => .ok s
  | .array items => joinValues items
  | .object props =>
    if hasOwn props (utf16 "toString") then .error .typeError
    else .ok (utf16 "[object Object]")
/-- `Array.prototype.join` with the separator `,`: `undefined` and `null`
elements give the empty string. -/
def joinValues : List JsValue → Except JsError JsString
  | [] => .ok []
  | [.undefined] => .ok []
  | [.null] => .ok []
  | [v] => v.toJsString
  | .undefined :: rest => (joinValues rest).map fun r => 44 :: r
  | .null :: rest => (joinValues rest).map fun r => 44 :: r
  | v :: rest =>
    match v.toJsString with
    | .error e => .error e
    | .ok s => (joinValues rest).map fun r => s ++ 44 :: r
end

/-- A number as `ToNumber` yields it: not-a-number, an infinity, or the
decimal `± digits × 10 ^ exponent` before it is rounded to a double. -/
inductive JsNumber where
  | nan : JsNumber
  | infinite (negative : Bool) : JsNumber
  | finite (negative : Bool) (digits : Nat) (exponent : Int) : JsNumber

/-- An integer as a number. -/
def JsNumber.ofInt : Int → JsNumber
  | .ofNat m => .finite false m 0
  | .negSucc m => .finite true (m + 1) 0

/-- A decimal digit `0`..`9`. -/
def isDecimalDigit (c : Nat) : Bool :=
  48 ≤ c && c ≤ 57

/-- Value of a digit `0`..`9`, `a`..`z` or `A`..`Z` in a radix up to 36. -/
def digitValue (c : Nat) : Nat :=
  if 48 ≤ c && c ≤ 57 then c - 48
  else if 97 ≤ c && c ≤ 122 then c - 87
  else if 65 ≤ c && c ≤ 90 then c - 55
  else 36

/-- Value of a run of digits in a radix. -/
def digitsValue (radix : Nat) (digits : JsString) : Nat :=
  digits.foldl (fun acc c => acc * radix + digitValue c) 0

/-- The literals `0x..`, `0o..` and `0b..` (either case of the letter). -/
def parseRadixLiteral : JsString → Option Nat
  | 48 :: p :: digits =>
    let radix :=
      if p == 120 || p == 88 then 16
      else if p == 111 || p == 79 then 8
      else if p == 98 || p == 66 then 2
      else 0
    if radix != 0 && !digits.isEmpty && digits.all (fun c => digitValue c < radix) then
      some (digitsValue radix digits)
    else none
  | _ => none

/-- The digits after `e` or `E`: an optional sign and at least one digit. -/
def parseExponent (s : JsString) : Option Int :=
  let signed : Bool × JsString :=
    match s with
    | 43 :: digits => (false, digits)
    | 45 :: digits => (true, digits)
    | digits => (false, digits)
  if !signed.2.isEmpty && signed.2.all isDecimalDigit then
    some (if signed.1 then -(digitsValue 10 signed.2 : Int) else (digitsValue 10 signed.2 : Int))
  else none

/-- An unsigned decimal literal: digits with an optional fraction and an
optional exponent, at least one digit before the exponent.  The result is
the digits without the point and the power of ten they are scaled by. -/
def parseDecimal (s : JsString) : Option (Nat × Int) :=
  let whole := s.takeWhile isDecimalDigit
  let rest := s.dropWhile isDecimalDigit
  let split : JsString × JsString :=
    match rest with
    | 46 :: r => (r.takeWhile isDecimalDigit, r.dropWhile isDecimalDigit)
    | r => ([], r)
  if whole.isEmpty && split.1.isEmpty then none
  else
    match split.2 with
    | [] => some (digitsValue 10 (whole ++ split.1), -(split.1.length : Int))
    | c :: r =>
      if c == 101 || c == 69 then
        (parseExponent r).map fun e =>
          (digitsValue 10 (whole ++ split.1), e - (split.1.length : Int))
      else none

/-- A string without the white space at its ends. -/
def trimWhiteSpace (s : JsString) : JsString :=
  ((s.dropWhile isWhiteSpace).reverse.dropWhile isWhiteSpace).reverse

/-- `StringToNumber`: the empty string is 0, a radix literal or a signed
decimal literal or `Infinity` is its value, anything else is not-a-number. -/
def stringToNumber (s : JsString) : JsNumber :=
  let t := trimWhiteSpace s
  if t.isEmpty then .finite false 0 0
  else
    match parseRadixLiteral t with
    | some v => .finite false v 0
    | none =>
      let signed : Bool × JsString :=
        match t with
        | 43 :: u => (false, u)
        | 45 :: u => (true, u)
        | u => (false, u)
      if signed.2 == utf16 "Infinity" then .infinite signed.1
      else
        match parseDecimal signed.2 with
        | some (digits, exponent) => .finite signed.1 digits exponent
        | none => .nan

/-- `ToNumber` of a value; an array or object is first converted to a
string. -/
def JsValue.toNumber : JsValue → Except JsError JsNumber
  | .undefined => .ok .nan
  | .null => .ok (.finite false 0 0)
  | .bool b => .ok (.finite false (if b then 1 else 0) 0)
  | .number n => .ok (.ofInt n)
  | .string s => .ok (stringToNumber s)
  | .array items => (joinValues items).map stringToNumber
  | .object props => (JsValue.object props).toJsString.map stringToNumber

/-- The exponent of the largest power of two that is at most `n`, found in
at most `fuel` halvings. -/
def log2Floor (fuel n : Nat) : Nat :=
  match fuel with
  | 0 => 0
  | fuel + 1 => if 2 ≤ n then log2Floor fuel (n / 2) + 1 else 0

/-- The doubles just below the integer `k` (with `1 ≤ k < 2 ^ 53`) are
`2 ^ -j` apart for `j = gapExponent k`. -/
def gapExponent (k : Nat) : Nat :=
  if k = 2 ^ log2Floor k k then 53 - log2Floor k k else 52 - log2Floor k k

/-- `x < k` for a number literal `k` with `1 ≤ k < 2 ^ 53`.  A decimal is
rounded to the nearest double first, so it is below `k` exactly when it is
below the midpoint `k - 2 ^ -(j + 1)` of the last double under `k` and `k`
(a tie rounds to `k`, whose significand is even). -/
def JsNumber.lessThan (x : JsNumber) (k : Nat) : Bool :=
  match x with
  | .nan => false
  | .infinite negative => negative
  | .finite true _ _ => true
  | .finite false digits (.ofNat e) =>
    decide (digits * 10 ^ e * 2 ^ (gapExponent k + 1) < k * 2 ^ (gapExponent k + 1) - 1)
  | .finite false digits (.negSucc e) =>
    decide (digits * 2 ^ (gapExponent k + 1) <
      (k * 2 ^ (gapExponent k + 1) - 1) * 10 ^ (e + 1))

/-- Reading `.length` of a value: the length of a string or array, the own
property of an object, nothing on a number or boolean; it throws on
`undefined` and `null`. -/
def JsValue.getLength : JsValue → Except JsError JsValue
  | .undefined => .error .typeError
  | .null => .error .typeError
  | .bool _ => .ok .undefined
  | .number _ => .ok .undefined
  | .string s => .ok (.number s.length)
  | .array items => .ok (.number items.length)
  | .object props => .ok ((props.lookup (utf16 "length")).getD .undefined)

/-- `Array.isArray`. -/
def JsValue.isArray : JsValue → Bool
  | .array _ => true
  | _ => false

/-- `v === 0`. -/
def JsValue.isZero : JsValue → Bool
  | .number n => n == 0
  | _ => false

/-- Truthiness of an array field: every array is truthy. -/
def truthyList : Option (List JsString) → Bool
  | none => false
  | some _ => true

/-- `v || d` on text: the first operand when truthy, else the second. -/
def orElse (v : Option JsString) (d : JsString) : JsString :=
  match v with
  | some s => if truthyStr s then s else d
  | none => d

/-- String conversion of a text field inside a template literal. -/
def toText : Option JsString → JsString
  | none => utf16 "undefined"
  | some s => s

/-- A text field as a value. -/
def ofText : Option JsString → JsValue
  | none => .undefined
  | some s => .string s

/-- A field holding an array of strings as a value. -/
def ofTexts : Option (List JsString) → JsValue
  | none => .undefined
  | some items => .array (items.map .string)

/-- The body of a contact request. -/
structure ContactData where
  name : Option JsString := none
  email : Option JsString := none
  phone : Option JsString := none
  subject : Option JsString := none
  message : Option JsString := none

/-- The body of a lead request. -/
structure LeadData where
  name : Option JsString := none
  email : Option JsString := none
  phone : Option JsString := none
  programs : Option (List JsString) := none
  goals : Option JsString := none
  ndisNumber : Option JsString := none
  emergencyContact : JsValue := .undefined
  message : Option JsString := none
  additionalInfo : Option JsString := none
  source : Option JsString := none

/-- The fields of a parsed lead body that `validateLeadData` reads, each
holding whatever the request carried, `undefined` when absent. -/
structure LeadBody where
  name : JsValue := .undefined
  email : JsValue := .undefined
  programs : JsValue := .undefined
  goals : JsValue := .undefined

/-- The fields `validateLeadData` reads of a typed lead body. -/
def LeadData.body (d : LeadData) : LeadBody :=
  { name := ofText d.name, email := ofText d.email, programs := ofTexts d.programs,
    goals := ofText d.goals }

/-- The result of a validation function. -/
structure ValidationResult where
  isValid : Bool
  errors : List JsString

/-! ## Validation -/

/-- `!v || v.length < n` for a text field; the length is read only of a
truthy value. -/
def missingOrShorter (v : Option JsString) (n : Nat) : Bool :=
  !truthyText v ||
    (match v with
     | some s => decide (s.length < n)
     | none => false)

/-- `!v || !re.test(v)` for the email field. -/
def missingOrNotEmail (v : Option JsString) : Bool :=
  !truthyText v ||
    (match v with
     | some s => !testEmail s
     | none => false)

/-- `!v || v.length < n` for a field holding any value; the length is read
only of a truthy value. -/
def missingOrShorterValue (v : JsValue) (n : Nat) : Except JsError Bool :=
  if !v.truthy then .ok true
  else
    match v.getLength with
    | .error e => .error e
    | .ok len => len.toNumber.map fun x => x.lessThan n

/-- `!v || !re.test(v)` for a field holding any value; `test` converts its
argument to a string. -/
def missingOrNotEmailValue (v : JsValue) : Except JsError Bool :=
  if !v.truthy then .ok true
  else v.toJsString.map fun s => !testEmail s

/-- `!v || !Array.isArray(v) || v.length === 0` for a field holding any
value. -/
def missingOrNoProgram (v : JsValue) : Except JsError Bool :=
  if !v.truthy || !v.isArray then .ok true
  else v.getLength.map fun len => len.isZero

/-- `validateContactData` of submit-contact.js. -/
def validateContactData (data : ContactData) : ValidationResult :=
  let errors : List JsString := []
  let errors :=
    if missingOrShorter data.name 2 then
      errors ++ [utf16 "Name must be at least 2 characters"]
    else errors
  let errors :=
    if missingOrNotEmail data.email then
      errors ++ [utf16 "Valid email is required"]
    else errors
  let errors :=
    if missingOrShorter data.message 10 then
      errors ++ [utf16 "Message must be at least 10 characters"]
    else errors
  { isValid := errors.length == 0, errors := errors }

/-- `validateLeadData` of submit-lead.js; it throws when a conversion
throws. -/
def validateLeadData (data : LeadBody) : Except JsError ValidationResult := do
  let errors : List JsString := []
  let errors :=
    if ← missingOrShorterValue data.name 2 then
      errors ++ [utf16 "Name must be at least 2 characters"]
    else errors
  let errors :=
    if ← missingOrNotEmailValue data.email then
      errors ++ [utf16 "Valid email is required"]
    else errors
  let errors :=
    if ← missingOrNoProgram data.programs then
      errors ++ [utf16 "At least one program must be selected"]
    else errors
  let errors :=
    if ← missingOrShorterValue data.goals 10 then
      errors ++ [utf16 "Goals must be at least 10 characters"]
    else errors
  pure { isValid := errors.length == 0, errors := errors }

/-! ## Lead scoring -/

/-- `calculateLeadScore` of submit-lead.js.  Reading `.includes` of an absent
email throws a `TypeError`. -/
def calculateLeadScore (leadData : LeadData) : Except JsError Nat :=
  match leadData.email with
  | none => .error .typeError
  | some email =>
    let score := 5
    let score :=
      if includes email (utf16 "@gmail.com") ||
          includes email (utf16 "@outlook.com") ||
          includes email (utf16 "@yahoo.com") then
        score + 2
      else score + 3
    let score := if truthyText leadData.phone then score + 3 else score
    let score :=
      if truthyList leadData.programs &&
          (match leadData.programs with
           | some items => decide (items.length > 1)
           | none => false) then
        score + 2
      else score
    let score := if truthyText leadData.ndisNumber then score + 4 else score
    let score :=
      if truthyText leadData.goals &&
          (match leadData.goals with
           | some s => decide (s.length > 50)
           | none => false) then
        score + 2
      else score
    let score := if leadData.emergencyContact.truthy then score + 1 else score
    .ok (min score 10)

/-! ## Requests, responses and the outside world -/

/-- A string literal as a value. -/
def str (s : String) : JsValue :=
  .string (utf16 s)

/-- An object literal with literal keys. -/
def obj (props : List (String × JsValue)) : JsValue :=
  .object (props.map fun kv => (utf16 kv.1, kv.2))

/-- The request as the handlers read it; `body` is `none` when there is no
object to read fields from. -/
structure Request (β : Type) where
  method : JsString
  body : Option β := none

/-- The response object `res`: the status, the headers set through
`setHeader` and the JSON body. -/
structure Res where
  statusCode : Nat := 200
  headers : List (JsString × JsString) := []
  body : Option JsValue := none

/-- `res.setHeader(key, value)`. -/
def Res.setHeader (res : Res) (key value : JsString) : Res :=
  { res with headers := res.headers.filter (fun kv => kv.1 != key) ++ [(key, value)] }

/-- `res.status(code)`. -/
def Res.status (res : Res) (code : Nat) : Res :=
  { res with statusCode := code }

/-- `res.json(body)`. -/
def Res.json (res : Res) (body : JsValue) : Res :=
  { res with body := some body }

/-- Outcome of one `notion.pages.create` call. -/
inductive StoreOutcome where
  | created (id : JsString) : StoreOutcome
  | failed (error : JsValue) : StoreOutcome

/-- Effects outside the response: the create calls issued, in order, and the
lines written with `console.error`. -/
structure World where
  calls : List JsValue := []
  logged : List (JsString × JsError) := []

/-- Clock and process environment. -/
structure Env where
  now : Nat
  toISOString : Nat → JsString
  leadsDbId : Option JsString := none
  nodeEnv : Option JsString := none

/-- `notion.pages.create(args)`: records the call and yields the identifier of
the created page, or throws. -/
def pagesCreate (store : JsValue → StoreOutcome) (args : JsValue) (world : World) :
    Except JsError JsString × World :=
  let world := { world with calls := world.calls ++ [args] }
  match store args with
  | .created id => (.ok id, world)
  | .failed error => (.error (.storeError error), world)

/-- `console.error(label, error)`. -/
def consoleError (label : JsString) (error : JsError) (world : World) : World :=
  { world with logged := world.logged ++ [(label, error)] }

/-- The `corsHeaders` constant, in key order. -/
def corsHeaders : List (JsString × JsString) :=
  [(utf16 "Access-Control-Allow-Origin", utf16 "*"),
   (utf16 "Access-Control-Allow-Methods", utf16 "GET, POST, OPTIONS"),
   (utf16 "Access-Control-Allow-Headers", utf16 "Content-Type")]

/-- The object `{ ...corsHeaders }`. -/
def corsObject : JsValue :=
  .object (corsHeaders.map fun kv => (kv.1, .string kv.2))

/-- `Object.keys(corsHeaders).forEach(key => res.setHeader(key, corsHeaders[key]))`. -/
def setCorsHeaders (res : Res) : Res :=
  corsHeaders.foldl (fun r kv => r.setHeader kv.1 kv.2) res

/-- `iso.split('T')[0]`. -/
def datePart (iso : JsString) : JsString :=
  iso.takeWhile fun c => c != 84

/-- What a handler leaves behind: the response and the world. -/
structure Run where
  res : Res
  world : World

/-! ## health.js -/

/-- The handler of health.js. -/
def health (env : Env) (req : Request Unit) : Run :=
  let res : Res := {}
  let world : World := {}
  if req.method == utf16 "OPTIONS" then
    ⟨(res.status 200).json corsObject, world⟩
  else
    let res := setCorsHeaders res
    if req.method != utf16 "GET" then
      ⟨(res.status 405).json
        (obj [("success", .bool false), ("error", str "Method not allowed")]), world⟩
    else
      ⟨(res.status 200).json
        (obj [("status", str "healthy"),
              ("timestamp", .string (env.toISOString env.now)),
              ("environment", .string (orElse env.nodeEnv (utf16 "production"))),
              ("service", str "CSSA Backend API")]), world⟩

/-! ## submit-contact.js -/

/-- A rich-text property holding one text run. -/
def richText (content : JsString) : JsValue :=
  obj [("rich_text", .array [obj [("text", obj [("content", .string content)])]])]

/-- A date property, `{ date: { start } }`. -/
def dateProp (start : JsString) : JsValue :=
  obj [("date", obj [("start", .string start)])]

/-- A select property, `{ select: { name } }`. -/
def selectProp (name : JsString) : JsValue :=
  obj [("select", obj [("name", .string name)])]

/-- The response body of the 500 answer, the same in both submission
handlers. -/
def internalErrorBody : JsValue :=
  obj [("success", .bool false),
       ("error", str "Internal server error"),
       ("message", str "Something went wrong. Please try again or contact us directly.")]

/-- The response body of the 405 answer. -/
def methodNotAllowedBody : JsValue :=
  obj [("success", .bool false), ("error", str "Method not allowed")]

/-- The response body of the 400 answer. -/
def validationFailedBody (errors : List JsString) : JsValue :=
  obj [("success", .bool false),
       ("error", str "Validation failed"),
       ("details", .array (errors.map .string))]

/-- The argument of `notion.pages.create` in submit-contact.js. -/
def contactPage (env : Env) (contactData : ContactData) : JsValue :=
  let leadName := contactData.name
  let leadEmail := contactData.email
  let leadPhone := orElse contactData.phone (utf16 "")
  obj [("parent", obj [("database_id", ofText env.leadsDbId)]),
       ("properties", obj [
         ("Lead Name", obj [("title", .array [obj [("text", obj [("content", ofText leadName)])]])]),
         ("Email", obj [("email", ofText leadEmail)]),
         ("Phone", obj [("phone_number", .string leadPhone)]),
         ("Program Interest", obj [("multi_select", .array [obj [("name", str "General Inquiry")]])]),
         ("Message", richText
            (utf16 "Contact Form Submission\n\nSubject: " ++
              orElse contactData.subject (utf16 "General Inquiry") ++
              utf16 "\n\nMessage: " ++ toText contactData.message)),
         ("Source", selectProp (utf16 "website_contact")),
         ("Lead Score", obj [("number", .number 6)]),
         ("Status", selectProp (utf16 "New")),
         ("Follow Up Date", dateProp (datePart (env.toISOString (env.now + 24 * 60 * 60 * 1000)))),
         ("Converted to Participant", obj [("checkbox", .bool false)]),
         ("Created Date", dateProp (datePart (env.toISOString env.now))),
         ("Notes", richText (utf16 "Contact form submission from website")),
         ("Next Steps", richText (utf16 "Respond to inquiry within 24 hours")),
         ("Days Since Contact", obj [("number", .number 0)])])]

/-- The `try` block of submit-contact.js: the response it returns, or what it
throws.  Reading a field of a missing body throws a `TypeError`. -/
def contactAttempt (env : Env) (store : JsValue → StoreOutcome)
    (req : Request ContactData) (res : Res) (world : World) : Except JsError Res × World :=
  match req.body with
  | none => (.error .typeError, world)
  | some contactData =>
    let validation := validateContactData contactData
    if !validation.isValid then
      (.ok ((res.status 400).json (validationFailedBody validation.errors)), world)
    else
      match pagesCreate store (contactPage env contactData) world with
      | (.error e, world) => (.error e, world)
      | (.ok id, world) =>
        (.ok ((res.status 200).json
          (obj [("success", .bool true),
                ("message", str "Message sent successfully! We'll respond within 24 hours."),
                ("leadId", .string id)])), world)

/-- The handler of submit-contact.js. -/
def submitContact (env : Env) (store : JsValue → StoreOutcome)
    (req : Request ContactData) : Run :=
  let res : Res := {}
  let world : World := {}
  if req.method == utf16 "OPTIONS" then
    ⟨(res.status 200).json corsObject, world⟩
  else
    let res := setCorsHeaders res
    if req.method != utf16 "POST" then
      ⟨(res.status 405).json methodNotAllowedBody, world⟩
    else
      match contactAttempt env store req res world with
      | (.ok answered, world) => ⟨answered, world⟩
      | (.error error, world) =>
        let world := consoleError (utf16 "Error saving contact:") error world
        ⟨(res.status 500).json internalErrorBody, world⟩

/-! ## submit-lead.js -/

/-- The argument of `notion.pages.create` in submit-lead.js. -/
def leadPage (env : Env) (leadData : LeadData) (leadScore : Nat) : JsValue :=
  obj [("parent", obj [("database_id", ofText env.leadsDbId)]),
       ("properties", obj [
         ("Lead Name", obj [("title", .array [obj [("text", obj [("content", ofText leadData.name)])]])]),
         ("Email", obj [("email", ofText leadData.email)]),
         ("Phone", obj [("phone_number", .string (orElse leadData.phone (utf16 "")))]),
         ("Program Interest", obj [("multi_select",
            .array ((leadData.programs.getD []).map fun program => obj [("name", .string program)]))]),
         ("Message", richText
            (utf16 "Goals: " ++ toText leadData.goals ++ utf16 "\n\n" ++
              orElse leadData.message (utf16 "") ++
              (if truthyText leadData.additionalInfo then
                utf16 "\n\nAdditional Info: " ++ toText leadData.additionalInfo
               else utf16 ""))),
         ("Source", selectProp (orElse leadData.source (utf16 "website"))),
         ("Lead Score", obj [("number", .number leadScore)]),
         ("Status", selectProp (utf16 "New")),
         ("Follow Up Date", dateProp (datePart (env.toISOString (env.now + 24 * 60 * 60 * 1000)))),
         ("Converted to Participant", obj [("checkbox", .bool false)]),
         ("Created Date", dateProp (datePart (env.toISOString env.now))),
         ("Notes", richText (utf16 "New lead from website submission")),
         ("Next Steps", richText (utf16 "Initial contact within 24 hours")),
         ("Days Since Contact", obj [("number", .number 0)])])]

/-- The `try` block of submit-lead.js: the response it returns, or what it
throws.  Reading a field of a missing body throws a `TypeError`. -/
def leadAttempt (env : Env) (store : JsValue → StoreOutcome)
    (req : Request LeadData) (res : Res) (world : World) : Except JsError Res × World :=
  match req.body with
  | none => (.error .typeError, world)
  | some leadData =>
    match validateLeadData leadData.body with
    | .error e => (.error e, world)
    | .ok validation =>
      if !validation.isValid then
        (.ok ((res.status 400).json (validationFailedBody validation.errors)), world)
      else
        match calculateLeadScore leadData with
        | .error e => (.error e, world)
        | .ok leadScore =>
          match pagesCreate store (leadPage env leadData leadScore) world with
          | (.error e, world) => (.error e, world)
          | (.ok id, world) =>
            (.ok ((res.status 200).json
              (obj [("success", .bool true),
                    ("message", str "Application submitted successfully! We'll contact you within 24 hours."),
                    ("leadId", .string id),
                    ("leadScore", .number leadScore)])), world)

/-- The handler of submit-lead.js. -/
def submitLead (env : Env) (store : JsValue → StoreOutcome)
    (req : Request LeadData) : Run :=
  let res : Res := {}
  let world : World := {}
  if req.method == utf16 "OPTIONS" then
    ⟨(res.status 200).json corsObject, world⟩
  else
    let res := setCorsHeaders res
    if req.method != utf16 "POST" then
      ⟨(res.status 405).json methodNotAllowedBody, world⟩
    else
      match leadAttempt env store req res world with
      | (.ok answered, world) => ⟨answered, world⟩
      | (.error error, world) =>
        let world := consoleError (utf16 "Error saving lead:") error world
        ⟨(res.status 500).json internalErrorBody, world⟩

/-! ## Specification-side definitions -/

/-- The strings a regular-expression term denotes. -/
def Regex.Denotes : Regex → JsString → Prop
  | .never, _ => False
  | .epsilon, s => s = []
  | .cls p, s => ∃ c, s = [c] ∧ p c = true
  | .seq a b, s => ∃ u v, s = u ++ v ∧ a.Denotes u ∧ b.Denotes v
  | .alt a b, s => a.Denotes s ∨ b.Denotes s
  | .star a, s => ∃ parts : List JsString, s = parts.flatten ∧ ∀ u ∈ parts, a.Denotes u

/-- A character that is neither white space nor `@`. -/
def PlainChar (c : Nat) : Prop :=
  isWhiteSpace c = false ∧ c ≠ 64

/-- The shape `X@Y.Z`: three non-empty runs of plain characters, joined by one
`@` and one `.`. -/
def EmailShape (e : JsString) : Prop :=
  ∃ x y z : JsString,
    e = x ++ 64 :: (y ++ 46 :: z) ∧ x ≠ [] ∧ y ≠ [] ∧ z ≠ [] ∧
      (∀ c ∈ x, PlainChar c) ∧ (∀ c ∈ y, PlainChar c) ∧ (∀ c ∈ z, PlainChar c)

/-- The part of a string before its first `@`. -/
def beforeAt (e : JsString) : JsString :=
  e.takeWhile fun c => c != 64

/-- The part of a string after its first `@`. -/
def afterAt (e : JsString) : JsString :=
  (e.dropWhile fun c => c != 64).drop 1

/-- The same strings described by their parts: no white space, exactly one
`@`, something before it, and after it a `.` that is neither the first nor the
last character. -/
def EmailDescribed (e : JsString) : Prop :=
  (∀ c ∈ e, isWhiteSpace c = false) ∧ e.count 64 = 1 ∧ beforeAt e ≠ [] ∧
    ∃ i, 0 < i ∧ i + 1 < (afterAt e).length ∧ (afterAt e)[i]? = some 46

/-- A text field breaks "at least `n` characters": it is missing, empty, or
shorter than `n`. -/
def TextFails : Option JsString → Nat → Prop
  | none, _ => True
  | some s, n => s = [] ∨ s.length < n

/-- An email field breaks "valid email": it is missing, empty, or does not
match the email pattern. -/
def EmailFails : Option JsString → Prop
  | none => True
  | some s => s = [] ∨ testEmail s = false

instance (v : Option JsString) (n : Nat) : Decidable (TextFails v n) :=
  match v with
  | none => isTrue trivial
  | some s => inferInstanceAs (Decidable (s = [] ∨ s.length < n))

instance (v : Option JsString) : Decidable (EmailFails v) :=
  match v with
  | none => isTrue trivial
  | some s => inferInstanceAs (Decidable (s = [] ∨ testEmail s = false))

/-- The rule "at least `n` characters": the field is a string of `n` or more
characters. -/
def TextHolds : JsValue → Nat → Prop
  | .string s, n => n ≤ s.length
  | _, _ => False

/-- The rule "valid email": the field is a string that matches the email
pattern. -/
def EmailHolds : JsValue → Prop
  | .string e => testEmail e = true
  | _ => False

/-- The rule "at least one program": the field is a list with an element. -/
def ProgramsHold : JsValue → Prop
  | .array items => 1 ≤ items.length
  | _ => False

instance (v : JsValue) (n : Nat) : Decidable (TextHolds v n) :=
  match v with
  | .string s => inferInstanceAs (Decidable (n ≤ s.length))
  | .undefined => isFalse id
  | .null => isFalse id
  | .bool _ => isFalse id
  | .number _ => isFalse id
  | .array _ => isFalse id
  | .object _ => isFalse id

instance (v : JsValue) : Decidable (EmailHolds v) :=
  match v with
  | .string e => inferInstanceAs (Decidable (testEmail e = true))
  | .undefined => isFalse id
  | .null => isFalse id
  | .bool _ => isFalse id
  | .number _ => isFalse id
  | .array _ => isFalse id
  | .object _ => isFalse id

instance (v : JsValue) : Decidable (ProgramsHold v) :=
  match v with
  | .array items => inferInstanceAs (Decidable (1 ≤ items.length))
  | .undefined => isFalse id
  | .null => isFalse id
  | .bool _ => isFalse id
  | .number _ => isFalse id
  | .string _ => isFalse id
  | .object _ => isFalse id

/-- A field that is a string, or is absent (`undefined` or `null`). -/
def TextOrAbsent : JsValue → Prop
  | .undefined => True
  | .null => True
  | .string _ => True
  | _ => False

/-- The checks of the contact form in order, each with its message. -/
def contactChecks (d : ContactData) : List (Bool × JsString) :=
  [(decide (TextFails d.name 2), utf16 "Name must be at least 2 characters"),
   (decide (EmailFails d.email), utf16 "Valid email is required"),
   (decide (TextFails d.message 10), utf16 "Message must be at least 10 characters")]

/-- The checks of the lead form in order, each with its message. -/
def leadChecks (b : LeadBody) : List (Bool × JsString) :=
  [(decide (¬ TextHolds b.name 2), utf16 "Name must be at least 2 characters"),
   (decide (¬ EmailHolds b.email), utf16 "Valid email is required"),
   (decide (¬ ProgramsHold b.programs), utf16 "At least one program must be selected"),
   (decide (¬ TextHolds b.goals 10), utf16 "Goals must be at least 10 characters")]

/-- The messages of the checks that failed, in the order of the checks. -/
def failedMessages (checks : List (Bool × JsString)) : List JsString :=
  (checks.filter fun c => c.1).map fun c => c.2

/-- The result that reports the failed checks. -/
def checkedResult (checks : List (Bool × JsString)) : ValidationResult :=
  { isValid := (failedMessages checks).length == 0, errors := failedMessages checks }

/-- The lead body with numbers for name and goals. -/
def numbersLead : LeadBody :=
  { name := .number 12, email := .string (utf16 "jo@x.io"),
    programs := .array [.string (utf16 "A")], goals := .number 1234567890123 }

/-- The lead body with a list for email. -/
def listEmailLead : LeadBody :=
  { name := .string (utf16 "Jo"), email := .array [.string (utf16 "jo@x.io")],
    programs := .array [.string (utf16 "A")], goals := .string (utf16 "0123456789") }

/-- A text field that is present and not the empty string. -/
def PresentNonEmpty (v : Option JsString) : Prop :=
  ∃ s, v = some s ∧ s ≠ []

/-- The email containing `@gmail.com`, `@outlook.com` or `@yahoo.com` as a
substring. -/
def ContainsFreeProvider (e : JsString) : Prop :=
  utf16 "@gmail.com" <:+: e ∨ utf16 "@outlook.com" <:+: e ∨ utf16 "@yahoo.com" <:+: e

instance (e : JsString) : Decidable (ContainsFreeProvider e) :=
  inferInstanceAs (Decidable (_ ∨ _ ∨ _))

/-- Email bonus: 2 when the email contains a free-provider substring, else 3. -/
def emailBonus (e : JsString) : Nat :=
  if ContainsFreeProvider e then 2 else 3

/-- Bonus `k` for a text field that is present and non-empty. -/
def presentNonEmptyBonus (k : Nat) : Option JsString → Nat
  | some (_ :: _) => k
  | _ => 0

/-- Bonus 2 for a programs list with more than one element. -/
def programsBonus : Option (List JsString) → Nat
  | some items => if 1 < items.length then 2 else 0
  | none => 0

/-- Bonus 2 for goals of more than 50 characters. -/
def goalsBonus : Option JsString → Nat
  | some s => if 50 < s.length then 2 else 0
  | none => 0

/-- Bonus 1 for a value that is present, whatever it is. -/
def presentBonus : JsValue → Nat
  | .undefined => 0
  | _ => 1

/-- Bonus 1 for a value that is present and truthy: not `null`, `false`, `0`
or the empty string. -/
def truthyBonus (v : JsValue) : Nat :=
  if v.truthy then 1 else 0

/-- The score as stated: every bonus added to the base 5, the sum capped at 10
at the end, the emergency-contact bonus given for presence. -/
def statedScore (d : LeadData) (e : JsString) : Nat :=
  min 10 (5 + emailBonus e + presentNonEmptyBonus 3 d.phone + programsBonus d.programs +
    presentNonEmptyBonus 4 d.ndisNumber + goalsBonus d.goals + presentBonus d.emergencyContact)

/-- The sum of the base and the bonuses before the cap, the emergency-contact
bonus given for a truthy value. -/
def accumulatedScore (d : LeadData) (e : JsString) : Nat :=
  5 + emailBonus e + presentNonEmptyBonus 3 d.phone + programsBonus d.programs +
    presentNonEmptyBonus 4 d.ndisNumber + goalsBonus d.goals + truthyBonus d.emergencyContact

/-- The lead of the scoring scenario. -/
def joSmith : LeadData :=
  { name := some (utf16 "Jo Smith"), email := some (utf16 "jo@gmail.com"),
    programs := some [utf16 "Day Program", utf16 "Respite"],
    goals := some (utf16 "I want to build independence skills over time"),
    phone := some (utf16 "0400000000"), ndisNumber := some (utf16 "123456") }

/-- The domain of an email is one of `gmail.com`, `outlook.com`, `yahoo.com`. -/
def FreeDomain (domain : JsString) : Prop :=
  domain = utf16 "gmail.com" ∨ domain = utf16 "outlook.com" ∨ domain = utf16 "yahoo.com"

/-- The domain of an email starts with one of `gmail.com`, `outlook.com`,
`yahoo.com`. -/
def FreeDomainStart (domain : JsString) : Prop :=
  utf16 "gmail.com" <+: domain ∨ utf16 "outlook.com" <+: domain ∨
    utf16 "yahoo.com" <+: domain

instance (domain : JsString) : Decidable (FreeDomain domain) :=
  inferInstanceAs (Decidable (_ ∨ _ ∨ _))

instance (domain : JsString) : Decidable (FreeDomainStart domain) :=
  inferInstanceAs (Decidable (_ ∨ _ ∨ _))

/-- A lead without any bonus but the email bonus: no phone, at most one
program, no NDIS number, goals of at most 50 characters, no emergency
contact. -/
def NoOtherBonus (d : LeadData) : Prop :=
  ¬ PresentNonEmpty d.phone ∧ (∀ items, d.programs = some items → items.length ≤ 1) ∧
    ¬ PresentNonEmpty d.ndisNumber ∧ (∀ g, d.goals = some g → g.length ≤ 50) ∧
    d.emergencyContact = .undefined

/-- The lead whose email is `a@gmail.com.evil.com` and nothing else. -/
def evilLead : LeadData :=
  { email := some (utf16 "a@gmail.com.evil.com") }

/-- The lead with a business email and an empty emergency contact. -/
def blankContactLead : LeadData :=
  { email := some (utf16 "a@b.co"), emergencyContact := .string [] }

/-- The answer of both submission handlers to a failed store call: status
500, the CORS headers, and a fixed body. -/
def internalErrorResponse : Res :=
  { statusCode := 500
    headers :=
      [(utf16 "Access-Control-Allow-Origin", utf16 "*"),
       (utf16 "Access-Control-Allow-Methods", utf16 "GET, POST, OPTIONS"),
       (utf16 "Access-Control-Allow-Headers", utf16 "Content-Type")]
    body := some (obj [("success", .bool false),
      ("error", str "Internal server error"),
      ("message", str "Something went wrong. Please try again or contact us directly.")]) }

/-- A clock stopped at the epoch, with no environment variables. -/
def epochEnv : Env :=
  { now := 0, toISOString := fun _ => utf16 "1970-01-01T00:00:00.000Z" }

/-- A store that rejects every call. -/
def rejectingStore : JsValue → StoreOutcome :=
  fun _ => .failed (str "unauthorized")

/-- A store that rejects every call with `null`. -/
def silentStore : JsValue → StoreOutcome :=
  fun _ => .failed .null

/-- A contact body that passes validation. -/
def janeContact : ContactData :=
  { name := some (utf16 "Jane"), email := some (utf16 "jane@example.org"),
    message := some (utf16 "Please call me back.") }

/-! ## The matcher against the denotation -/

theorem Regex.nullable_iff (r : Regex) : r.nullable = true ↔ r.Denotes [] := by
  induction r with
  | never => simp [nullable, Denotes]
  | epsilon => simp [nullable, Denotes]
  | cls p => simp [nullable, Denotes]
  | seq a b iha ihb =>
    simp only [nullable, Denotes, Bool.and_eq_true, iha, ihb]
    constructor
    · rintro ⟨ha, hb⟩
      exact ⟨[], [], rfl, ha, hb⟩
    · rintro ⟨u, v, huv, ha, hb⟩
      have hu : u = [] := (List.append_eq_nil.mp huv.symm).1
      have hv : v = [] := (List.append_eq_nil.mp huv.symm).2
      subst hu hv
      exact ⟨ha, hb⟩
  | alt a b iha ihb => simp [nullable, Denotes, iha, ihb]
  | star a _ =>
    simp only [nullable, Denotes, true_iff]
    exact ⟨[], rfl, by simp⟩

theorem Regex.star_cons_iff (a : Regex) (c : Nat) (s : JsString) :
    (Regex.star a).Denotes (c :: s) ↔
      ∃ u v, s = u ++ v ∧ a.Denotes (c :: u) ∧ (Regex.star a).Denotes v := by
  constructor
  · rintro ⟨parts, hs, hall⟩
    induction parts with
    | nil => simp at hs
    | cons p rest ih =>
      cases p with
      | nil =>
        exact ih (by simpa using hs) (fun u hu => hall u (List.mem_cons_of_mem _ hu))
      | cons d p =>
        simp only [List.flatten_cons, List.cons_append, List.cons.injEq] at hs
        obtain ⟨hd, hs⟩ := hs
        subst hd
        exact ⟨p, rest.flatten, hs, hall _ (List.mem_cons_self _ _),
          rest, rfl, fun u hu => hall u (List.mem_cons_of_mem _ hu)⟩
  · rintro ⟨u, v, hs, hu, parts, hv, hall⟩
    refine ⟨(c :: u) :: parts, ?_, ?_⟩
    · simp [hs, hv]
    · intro w hw
      rcases List.mem_cons.mp hw with h | h
      · exact h ▸ hu
      · exact hall w h

theorem Regex.deriv_iff (r : Regex) (c : Nat) (s : JsString) :
    (r.deriv c).Denotes s ↔ r.Denotes (c :: s) := by
  induction r generalizing s with
  | never => simp [deriv, Denotes]
  | epsilon => simp [deriv, Denotes]
  | cls p =>
    by_cases hp : p c = true
    · simp only [deriv, hp, if_true, Denotes]
      constructor
      · rintro rfl
        exact ⟨c, rfl, hp⟩
      · rintro ⟨d, hd, _⟩
        simp only [List.cons.injEq] at hd
        exact hd.2
    · simp only [deriv, hp, Denotes]
      constructor
      · intro h
        simp at h
      · rintro ⟨d, hd, hpd⟩
        simp only [List.cons.injEq] at hd
        exact hp (hd.1 ▸ hpd)
  | seq a b iha ihb =>
    have key : (Regex.seq a b).Denotes (c :: s) ↔
        (∃ u v, s = u ++ v ∧ a.Denotes (c :: u) ∧ b.Denotes v) ∨
          (a.Denotes [] ∧ b.Denotes (c :: s)) := by
      constructor
      · rintro ⟨u, v, huv, ha, hb⟩
        cases u with
        | nil =>
          right
          simp only [List.nil_append] at huv
          exact ⟨ha, huv ▸ hb⟩
        | cons d u =>
          left
          simp only [List.cons_append, List.cons.injEq] at huv
          obtain ⟨hd, hs⟩ := huv
          subst hd
          exact ⟨u, v, hs, ha, hb⟩
      · rintro (⟨u, v, hs, ha, hb⟩ | ⟨ha, hb⟩)
        · exact ⟨c :: u, v, by simp [hs], ha, hb⟩
        · exact ⟨[], c :: s, rfl, ha, hb⟩
    rw [key]
    by_cases hn : a.nullable = true
    · have hn2 := (Regex.nullable_iff a).mp hn
      simp only [deriv, hn, if_true, Denotes, iha, ihb]
      simp [hn2]
    · have hn2 : ¬ a.Denotes [] := fun h => hn ((Regex.nullable_iff a).mpr h)
      simp only [deriv, hn, Denotes, iha]
      simp [hn2]
  | alt a b iha ihb => simp [deriv, Denotes, iha, ihb]
  | star a iha =>
    rw [Regex.star_cons_iff]
    simp only [deriv, Denotes, iha]

theorem Regex.accepts_iff (r : Regex) (s : JsString) :
    r.accepts s = true ↔ r.Denotes s := by
  induction s generalizing r with
  | nil => simpa [accepts] using Regex.nullable_iff r
  | cons c s ih => simpa [accepts, ih] using Regex.deriv_iff r c s

/-! ## The email pattern -/

theorem notSpaceAt_iff (c : Nat) : notSpaceAt c = true ↔ PlainChar c := by
  unfold notSpaceAt PlainChar
  cases h : isWhiteSpace c <;> simp

theorem Regex.star_cls_iff (p : Nat → Bool) (s : JsString) :
    (Regex.star (.cls p)).Denotes s ↔ ∀ c ∈ s, p c = true := by
  induction s with
  | nil =>
    simp only [List.not_mem_nil, false_implies, implies_true, iff_true]
    exact ⟨[], rfl, by simp⟩
  | cons c s ih =>
    rw [Regex.star_cons_iff]
    constructor
    · rintro ⟨u, v, hs, ⟨d, hd, hp⟩, hv⟩
      simp only [List.cons.injEq] at hd
      obtain ⟨hcd, hu⟩ := hd
      subst hcd hu
      simp only [List.nil_append] at hs
      subst hs
      intro x hx
      rcases List.mem_cons.mp hx with h | h
      · exact h ▸ hp
      · exact ih.mp hv x h
    · intro h
      exact ⟨[], s, rfl, ⟨c, rfl, h c (List.mem_cons_self _ _)⟩,
        ih.mpr fun x hx => h x (List.mem_cons_of_mem _ hx)⟩

theorem Regex.plus_cls_iff (p : Nat → Bool) (s : JsString) :
    (Regex.plus (.cls p)).Denotes s ↔ s ≠ [] ∧ ∀ c ∈ s, p c = true := by
  unfold Regex.plus
  constructor
  · rintro ⟨u, v, hs, ⟨c, hc, hp⟩, hv⟩
    subst hc hs
    refine ⟨by simp, ?_⟩
    intro x hx
    rcases List.mem_cons.mp hx with h | h
    · exact h ▸ hp
    · exact (Regex.star_cls_iff p v).mp hv x h
  · rintro ⟨hne, h⟩
    cases s with
    | nil => exact absurd rfl hne
    | cons c s =>
      exact ⟨[c], s, rfl, ⟨c, rfl, h c (List.mem_cons_self _ _)⟩,
        (Regex.star_cls_iff p s).mpr fun x hx => h x (List.mem_cons_of_mem _ hx)⟩

theorem Regex.unit_iff (k : Nat) (s : JsString) :
    (Regex.unit k).Denotes s ↔ s = [k] := by
  unfold Regex.unit
  simp only [Regex.Denotes, beq_iff_eq]
  constructor
  · rintro ⟨c, hs, hc⟩
    rw [hs, hc]
  · intro h
    exact ⟨k, h, rfl⟩

theorem emailPattern_denotes_iff (e : JsString) :
    emailPattern.Denotes e ↔ EmailShape e := by
  have plain : ∀ u : JsString,
      (∀ c ∈ u, notSpaceAt c = true) ↔ ∀ c ∈ u, PlainChar c := fun u =>
    ⟨fun h c hc => (notSpaceAt_iff c).mp (h c hc), fun h c hc => (notSpaceAt_iff c).mpr (h c hc)⟩
  constructor
  · rintro ⟨x, r1, he, hx, a, r2, h1, ha, y, r3, h2, hy, d, z, h3, hd, hz⟩
    rw [Regex.plus_cls_iff, plain] at hx hy hz
    rw [Regex.unit_iff] at ha hd
    subst ha hd h3 h2 h1 he
    exact ⟨x, y, z, by simp, hx.1, hy.1, hz.1, hx.2, hy.2, hz.2⟩
  · rintro ⟨x, y, z, he, hx, hy, hz, px, py, pz⟩
    refine ⟨x, 64 :: (y ++ 46 :: z), he, ?_, [64], y ++ 46 :: z, rfl, ?_,
      y, 46 :: z, rfl, ?_, [46], z, rfl, ?_, ?_⟩
    · exact (Regex.plus_cls_iff _ _).mpr ⟨hx, (plain x).mpr px⟩
    · exact (Regex.unit_iff _ _).mpr rfl
    · exact (Regex.plus_cls_iff _ _).mpr ⟨hy, (plain y).mpr py⟩
    · exact (Regex.unit_iff _ _).mpr rfl
    · exact (Regex.plus_cls_iff _ _).mpr ⟨hz, (plain z).mpr pz⟩

theorem testEmail_iff (e : JsString) : testEmail e = true ↔ EmailShape e := by
  unfold testEmail
  rw [Regex.accepts_iff, emailPattern_denotes_iff]

theorem beforeAt_append (x rest : JsString) (hx : ∀ c ∈ x, c ≠ 64) :
    beforeAt (x ++ 64 :: rest) = x := by
  unfold beforeAt
  rw [List.takeWhile_append_of_pos (fun c hc => by simpa using hx c hc)]
  simp

theorem afterAt_append (x rest : JsString) (hx : ∀ c ∈ x, c ≠ 64) :
    afterAt (x ++ 64 :: rest) = rest := by
  unfold afterAt
  rw [List.dropWhile_append_of_pos (fun c hc => by simpa using hx c hc)]
  simp

theorem count_at_eq_zero (x : JsString) (hx : ∀ c ∈ x, c ≠ 64) : x.count 64 = 0 :=
  List.count_eq_zero.mpr fun h => hx 64 h rfl

theorem split_at_first (e : JsString) (h : e.count 64 = 1) :
    e = beforeAt e ++ 64 :: afterAt e ∧ (∀ c ∈ beforeAt e, c ≠ 64) ∧
      (∀ c ∈ afterAt e, c ≠ 64) := by
  have hbefore : ∀ c ∈ beforeAt e, c ≠ 64 := fun c hc => by
    simpa using List.mem_takeWhile_imp hc
  have hsplit : beforeAt e ++ e.dropWhile (fun c => c != 64) = e :=
    List.takeWhile_append_dropWhile _ e
  have hne : e.dropWhile (fun c => c != 64) ≠ [] := by
    intro hnil
    rw [hnil, List.append_nil] at hsplit
    rw [← hsplit, count_at_eq_zero _ hbefore] at h
    exact absurd h (by decide)
  obtain ⟨d, rest, hrest⟩ := List.exists_cons_of_ne_nil hne
  have hd : d = 64 := by
    have := List.head_dropWhile_not (fun c => c != 64) e hne
    simp only [hrest, List.head_cons] at this
    simpa using this
  subst hd
  have hafter : afterAt e = rest := by
    unfold afterAt
    rw [hrest]
    rfl
  rw [hrest] at hsplit
  rw [hafter]
  refine ⟨hsplit.symm, hbefore, ?_⟩
  have hcount : rest.count 64 = 0 := by
    rw [← hsplit, List.count_append, count_at_eq_zero _ hbefore, List.count_cons_self] at h
    omega
  intro c hc hc64
  exact List.count_eq_zero.mp hcount (hc64 ▸ hc)

theorem emailShape_iff_described (e : JsString) : EmailShape e ↔ EmailDescribed e := by
  constructor
  · rintro ⟨x, y, z, he, hx, hy, hz, px, py, pz⟩
    have hx64 : ∀ c ∈ x, c ≠ 64 := fun c hc => (px c hc).2
    have hy64 : y.count 64 = 0 := count_at_eq_zero y fun c hc => (py c hc).2
    have hz64 : z.count 64 = 0 := count_at_eq_zero z fun c hc => (pz c hc).2
    subst he
    refine ⟨?_, ?_, ?_, y.length, List.length_pos.mpr hy, ?_, ?_⟩
    · intro c hc
      simp only [List.mem_append, List.mem_cons] at hc
      rcases hc with h | h | h | h | h
      · exact (px c h).1
      · subst h
        decide
      · exact (py c h).1
      · subst h
        decide
      · exact (pz c h).1
    · rw [List.count_append, count_at_eq_zero x hx64, List.count_cons_self, List.count_append,
        hy64, List.count_cons_of_ne (by decide), hz64]
    · rw [beforeAt_append x _ hx64]
      exact hx
    · rw [afterAt_append x _ hx64]
      have := List.length_pos.mpr hz
      simp only [List.length_append, List.length_cons]
      omega
    · rw [afterAt_append x _ hx64, List.getElem?_append_right (le_refl _)]
      simp
  · rintro ⟨hws, hcount, hbefore, i, hi0, hi1, hi⟩
    obtain ⟨hsplit, hb64, ha64⟩ := split_at_first e hcount
    have hilt : i < (afterAt e).length := by omega
    have hafter : afterAt e = (afterAt e).take i ++ 46 :: (afterAt e).drop (i + 1) := by
      obtain ⟨_, hget⟩ := List.getElem?_eq_some.mp hi
      have h1 := List.take_append_drop i (afterAt e)
      rw [List.drop_eq_getElem_cons hilt, hget] at h1
      exact h1.symm
    have hmem : ∀ c, c ∈ beforeAt e ∨ c ∈ afterAt e → c ∈ e := by
      intro c hc
      rw [hsplit]
      simp only [List.mem_append, List.mem_cons]
      rcases hc with h | h
      · exact Or.inl h
      · exact Or.inr (Or.inr h)
    refine ⟨beforeAt e, (afterAt e).take i, (afterAt e).drop (i + 1), ?_, hbefore, ?_, ?_,
      ?_, ?_, ?_⟩
    · rw [← hafter]
      exact hsplit
    · apply List.ne_nil_of_length_pos
      rw [List.length_take]
      omega
    · apply List.ne_nil_of_length_pos
      rw [List.length_drop]
      omega
    · intro c hc
      exact ⟨hws c (hmem c (Or.inl hc)), hb64 c hc⟩
    · intro c hc
      have := List.mem_of_mem_take hc
      exact ⟨hws c (hmem c (Or.inr this)), ha64 c this⟩
    · intro c hc
      have := List.mem_of_mem_drop hc
      exact ⟨hws c (hmem c (Or.inr this)), ha64 c this⟩

/-! ## Validation -/

theorem missingOrShorter_iff (v : Option JsString) (n : Nat) :
    missingOrShorter v n = true ↔ TextFails v n := by
  cases v with
  | none => simp [missingOrShorter, truthyText, TextFails]
  | some s =>
    cases s with
    | nil => simp [missingOrShorter, truthyText, truthyStr, TextFails]
    | cons c s => simp [missingOrShorter, truthyText, truthyStr, TextFails]

theorem missingOrNotEmail_iff (v : Option JsString) :
    missingOrNotEmail v = true ↔ EmailFails v := by
  cases v with
  | none => simp [missingOrNotEmail, truthyText, EmailFails]
  | some s =>
    cases s with
    | nil => simp [missingOrNotEmail, truthyText, truthyStr, EmailFails]
    | cons c s => simp [missingOrNotEmail, truthyText, truthyStr, EmailFails]

theorem lessThan_ofNat (m k : Nat) :
    (JsNumber.finite false m 0).lessThan k = decide (m < k) := by
  have hp : 2 ≤ 2 ^ (gapExponent k + 1) := by
    calc 2 = 2 ^ 1 := rfl
      _ ≤ 2 ^ (gapExponent k + 1) := Nat.pow_le_pow_right (by decide) (by omega)
  simp only [JsNumber.lessThan, pow_zero, mul_one, decide_eq_decide]
  generalize 2 ^ (gapExponent k + 1) = p at hp
  constructor
  · intro h
    by_contra hmk
    have : k * p ≤ m * p := Nat.mul_le_mul_right p (by omega)
    omega
  · intro h
    have h1 : (m + 1) * p ≤ k * p := Nat.mul_le_mul_right p h
    have h2 : (m + 1) * p = m * p + p := by ring
    omega

theorem missingOrShorterValue_text (v : JsValue) (n : Nat) (hn : 0 < n)
    (hv : TextOrAbsent v) :
    missingOrShorterValue v n = .ok (decide (¬ TextHolds v n)) := by
  cases v with
  | undefined => rfl
  | null => rfl
  | string s =>
    cases s with
    | nil =>
      have : ¬ n ≤ 0 := by omega
      simp [missingOrShorterValue, JsValue.truthy, truthyStr, TextHolds, this]
    | cons c s =>
      have h := lessThan_ofNat (s.length + 1) n
      simp only [missingOrShorterValue, JsValue.truthy, truthyStr, JsValue.getLength,
        JsValue.toNumber, TextHolds, List.length_cons, List.isEmpty_cons, Bool.not_false,
        Bool.not_true, Bool.false_eq_true, if_false, Except.map]
      have hint : JsNumber.ofInt ((s.length + 1 : Nat) : Int) =
          JsNumber.finite false (s.length + 1) 0 := rfl
      rw [hint, h]
      simp
  | bool b => exact absurd hv id
  | number k => exact absurd hv id
  | array items => exact absurd hv id
  | object props => exact absurd hv id

theorem missingOrNotEmailValue_text (v : JsValue) (hv : TextOrAbsent v) :
    missingOrNotEmailValue v = .ok (decide (¬ EmailHolds v)) := by
  cases v with
  | undefined => rfl
  | null => rfl
  | string s =>
    cases s with
    | nil =>
      have : testEmail [] = false := by decide
      simp [missingOrNotEmailValue, JsValue.truthy, truthyStr, EmailHolds, this]
    | cons c s =>
      simp [missingOrNotEmailValue, JsValue.truthy, truthyStr, JsValue.toJsString, EmailHolds,
        Except.map]
  | bool b => exact absurd hv id
  | number k => exact absurd hv id
  | array items => exact absurd hv id
  | object props => exact absurd hv id

theorem missingOrNoProgram_eq (v : JsValue) :
    missingOrNoProgram v = .ok (decide (¬ ProgramsHold v)) := by
  cases v with
  | undefined => rfl
  | null => rfl
  | bool b => cases b <;> rfl
  | number k => by_cases h : k = 0 <;> simp [missingOrNoProgram, JsValue.truthy,
      JsValue.isArray, ProgramsHold, h]
  | string s => cases s <;> simp [missingOrNoProgram, JsValue.truthy, truthyStr,
      JsValue.isArray, ProgramsHold]
  | array items =>
    cases items with
    | nil => simp [missingOrNoProgram, JsValue.truthy, JsValue.isArray, JsValue.getLength,
        JsValue.isZero, ProgramsHold, Except.map]
    | cons x xs =>
      simp only [missingOrNoProgram, JsValue.truthy, JsValue.isArray, JsValue.getLength,
        JsValue.isZero, ProgramsHold, Except.map, List.length_cons]
      have : ¬ ((xs.length : Int) + 1 = 0) := by omega
      simp [this]
  | object props => simp [missingOrNoProgram, JsValue.truthy, JsValue.isArray, ProgramsHold]

theorem validateContactData_errors (d : ContactData) :
    (validateContactData d).errors = failedMessages (contactChecks d) := by
  have h1 := missingOrShorter_iff d.name 2
  have h2 := missingOrNotEmail_iff d.email
  have h3 := missingOrShorter_iff d.message 10
  unfold validateContactData failedMessages contactChecks
  by_cases c1 : TextFails d.name 2 <;> by_cases c2 : EmailFails d.email <;>
    by_cases c3 : TextFails d.message 10 <;>
    simp [c1, c2, c3, h1.mpr, h2.mpr, h3.mpr, mt h1.mp, mt h2.mp, mt h3.mp]

theorem validateLeadData_eq (b : LeadBody) (hn : TextOrAbsent b.name)
    (he : TextOrAbsent b.email) (hg : TextOrAbsent b.goals) :
    validateLeadData b = .ok (checkedResult (leadChecks b)) := by
  have h1 := missingOrShorterValue_text b.name 2 (by decide) hn
  have h2 := missingOrNotEmailValue_text b.email he
  have h3 := missingOrNoProgram_eq b.programs
  have h4 := missingOrShorterValue_text b.goals 10 (by decide) hg
  unfold validateLeadData
  rw [h1, h2, h3, h4]
  unfold checkedResult failedMessages leadChecks
  by_cases c1 : TextHolds b.name 2 <;> by_cases c2 : EmailHolds b.email <;>
    by_cases c3 : ProgramsHold b.programs <;> by_cases c4 : TextHolds b.goals 10 <;>
    simp [c1, c2, c3, c4, bind, Except.bind, pure, Except.pure]

theorem textOrAbsent_ofText (v : Option JsString) : TextOrAbsent (ofText v) := by
  cases v <;> exact trivial

theorem validateLeadData_typed (d : LeadData) :
    validateLeadData d.body = .ok (checkedResult (leadChecks d.body)) :=
  validateLeadData_eq d.body (textOrAbsent_ofText d.name) (textOrAbsent_ofText d.email)
    (textOrAbsent_ofText d.goals)

theorem failedMessages_sublist (checks : List (Bool × JsString)) :
    (failedMessages checks).Sublist (checks.map fun c => c.2) :=
  (List.filter_sublist checks).map _

theorem failedMessages_three (b1 b2 b3 : Bool) (m1 m2 m3 : JsString)
    (h12 : m1 ≠ m2) (h13 : m1 ≠ m3) (h23 : m2 ≠ m3) :
    (m1 ∈ failedMessages [(b1, m1), (b2, m2), (b3, m3)] ↔ b1 = true) ∧
    (m2 ∈ failedMessages [(b1, m1), (b2, m2), (b3, m3)] ↔ b2 = true) ∧
    (m3 ∈ failedMessages [(b1, m1), (b2, m2), (b3, m3)] ↔ b3 = true) := by
  cases b1 <;> cases b2 <;> cases b3 <;>
    simp [failedMessages, h12, h13, h23, h12.symm, h13.symm, h23.symm]

theorem failedMessages_four (b1 b2 b3 b4 : Bool) (m1 m2 m3 m4 : JsString)
    (h12 : m1 ≠ m2) (h13 : m1 ≠ m3) (h14 : m1 ≠ m4) (h23 : m2 ≠ m3) (h24 : m2 ≠ m4)
    (h34 : m3 ≠ m4) :
    (m1 ∈ failedMessages [(b1, m1), (b2, m2), (b3, m3), (b4, m4)] ↔ b1 = true) ∧
    (m2 ∈ failedMessages [(b1, m1), (b2, m2), (b3, m3), (b4, m4)] ↔ b2 = true) ∧
    (m3 ∈ failedMessages [(b1, m1), (b2, m2), (b3, m3), (b4, m4)] ↔ b3 = true) ∧
    (m4 ∈ failedMessages [(b1, m1), (b2, m2), (b3, m3), (b4, m4)] ↔ b4 = true) := by
  cases b1 <;> cases b2 <;> cases b3 <;> cases b4 <;>
    simp [failedMessages, h12, h13, h14, h23, h24, h34, h12.symm, h13.symm, h14.symm,
      h23.symm, h24.symm, h34.symm]

theorem isValid_iff_no_errors_contact (d : ContactData) :
    (validateContactData d).isValid = true ↔ (validateContactData d).errors = [] := by
  have h : (validateContactData d).isValid = ((validateContactData d).errors.length == 0) := rfl
  rw [h]
  simp

theorem checkedResult_isValid (checks : List (Bool × JsString)) :
    (checkedResult checks).isValid = true ↔ (checkedResult checks).errors = [] := by
  simp [checkedResult]

theorem contact_error_membership (d : ContactData) :
    (utf16 "Name must be at least 2 characters" ∈ (validateContactData d).errors ↔
      TextFails d.name 2) ∧
    (utf16 "Valid email is required" ∈ (validateContactData d).errors ↔
      EmailFails d.email) ∧
    (utf16 "Message must be at least 10 characters" ∈ (validateContactData d).errors ↔
      TextFails d.message 10) := by
  have hmem := failedMessages_three (decide (TextFails d.name 2)) (decide (EmailFails d.email))
    (decide (TextFails d.message 10)) (utf16 "Name must be at least 2 characters")
    (utf16 "Valid email is required") (utf16 "Message must be at least 10 characters")
    (by decide) (by decide) (by decide)
  simp only [decide_eq_true_eq] at hmem
  rw [validateContactData_errors]
  exact hmem

/-- C1: for every contact payload the error list of `validateContactData` is
the sub-list of the three messages (name, email, message, in that order, none
twice) whose check failed, each message depending on its own check only, and
`isValid` holds exactly when the list is empty; the payload
`{name:"A", email:"bad-email", message:"hi"}` gets all three errors in order
and `isValid = false`. -/
theorem validateContactData_reports_failed_checks (d : ContactData) :
    (validateContactData d).errors = failedMessages (contactChecks d) ∧
    (validateContactData d).errors.Sublist
      [utf16 "Name must be at least 2 characters", utf16 "Valid email is required",
       utf16 "Message must be at least 10 characters"] ∧
    (validateContactData d).errors.Nodup ∧
    (utf16 "Name must be at least 2 characters" ∈ (validateContactData d).errors ↔
      TextFails d.name 2) ∧
    (utf16 "Valid email is required" ∈ (validateContactData d).errors ↔
      EmailFails d.email) ∧
    (utf16 "Message must be at least 10 characters" ∈ (validateContactData d).errors ↔
      TextFails d.message 10) ∧
    ((validateContactData d).isValid = true ↔ (validateContactData d).errors = []) ∧
    (validateContactData
        { name := some (utf16 "A"), email := some (utf16 "bad-email"),
          message := some (utf16 "hi") }).errors =
      [utf16 "Name must be at least 2 characters", utf16 "Valid email is required",
       utf16 "Message must be at least 10 characters"] ∧
    (validateContactData
        { name := some (utf16 "A"), email := some (utf16 "bad-email"),
          message := some (utf16 "hi") }).isValid = false := by
  have hsub : (validateContactData d).errors.Sublist
      [utf16 "Name must be at least 2 characters", utf16 "Valid email is required",
       utf16 "Message must be at least 10 characters"] := by
    rw [validateContactData_errors]
    exact failedMessages_sublist (contactChecks d)
  obtain ⟨h1, h2, h3⟩ := contact_error_membership d
  exact ⟨validateContactData_errors d, hsub, hsub.nodup (by decide), h1, h2, h3,
    isValid_iff_no_errors_contact d, by decide, by decide⟩

theorem emailFails_some_iff (e : JsString) : EmailFails (some e) ↔ testEmail e = false := by
  simp only [EmailFails]
  constructor
  · rintro (h | h)
    · subst h
      decide
    · exact h
  · exact Or.inr

theorem lead_error_membership (b : LeadBody) :
    (utf16 "Name must be at least 2 characters" ∈ (checkedResult (leadChecks b)).errors ↔
      ¬ TextHolds b.name 2) ∧
    (utf16 "Valid email is required" ∈ (checkedResult (leadChecks b)).errors ↔
      ¬ EmailHolds b.email) ∧
    (utf16 "At least one program must be selected" ∈ (checkedResult (leadChecks b)).errors ↔
      ¬ ProgramsHold b.programs) ∧
    (utf16 "Goals must be at least 10 characters" ∈ (checkedResult (leadChecks b)).errors ↔
      ¬ TextHolds b.goals 10) := by
  have hmem := failedMessages_four (decide (¬ TextHolds b.name 2))
    (decide (¬ EmailHolds b.email)) (decide (¬ ProgramsHold b.programs))
    (decide (¬ TextHolds b.goals 10))
    (utf16 "Name must be at least 2 characters") (utf16 "Valid email is required")
    (utf16 "At least one program must be selected")
    (utf16 "Goals must be at least 10 characters")
    (by decide) (by decide) (by decide) (by decide) (by decide) (by decide)
  simp only [decide_eq_true_eq] at hmem
  exact hmem

theorem lead_errors_sublist (b : LeadBody) :
    (checkedResult (leadChecks b)).errors.Sublist
      [utf16 "Name must be at least 2 characters", utf16 "Valid email is required",
       utf16 "At least one program must be selected",
       utf16 "Goals must be at least 10 characters"] :=
  failedMessages_sublist (leadChecks b)

theorem lead_no_errors_iff_rules (b : LeadBody) :
    (checkedResult (leadChecks b)).errors = [] ↔
      (TextHolds b.name 2 ∧ EmailHolds b.email ∧ ProgramsHold b.programs ∧
        TextHolds b.goals 10) := by
  have hsub := lead_errors_sublist b
  obtain ⟨h1, h2, h3, h4⟩ := lead_error_membership b
  constructor
  · intro hnil
    rw [hnil] at h1 h2 h3 h4
    simp only [List.not_mem_nil, false_iff, not_not] at h1 h2 h3 h4
    exact ⟨h1, h2, h3, h4⟩
  · rintro ⟨r1, r2, r3, r4⟩
    apply List.eq_nil_iff_forall_not_mem.mpr
    intro m hm
    have := hsub.subset hm
    simp only [List.mem_cons, List.mem_singleton, List.not_mem_nil, or_false] at this
    rcases this with h | h | h | h
    · exact h1.mp (h ▸ hm) r1
    · exact h2.mp (h ▸ hm) r2
    · exact h3.mp (h ▸ hm) r3
    · exact h4.mp (h ▸ hm) r4

theorem valid_lead_has_email (d : LeadData) (r : ValidationResult)
    (hr : validateLeadData d.body = .ok r) (h : r.isValid = true) :
    ∃ e, d.email = some e := by
  rw [validateLeadData_typed] at hr
  have hr2 : checkedResult (leadChecks d.body) = r := Except.ok.inj hr
  subst hr2
  have := ((lead_no_errors_iff_rules d.body).mp ((checkedResult_isValid _).mp h)).2.1
  cases hd : d.email with
  | none => simp [LeadData.body, hd, ofText, EmailHolds] at this
  | some e => exact ⟨e, rfl⟩

/-- C2 as stated fails: the body `{name: 12, email: 'jo@x.io', programs:
['A'], goals: 1234567890123}` is answered `isValid = true` with no error
although the name and the goals are numbers, not text of 2 and 10 characters;
and the body with `email: ['jo@x.io']` is answered `isValid = true` although
its email is a list, not a string that matches the pattern. -/
theorem numbers_pass_for_name_and_goals :
    validateLeadData numbersLead = .ok { isValid := true, errors := [] } ∧
    ¬ TextHolds numbersLead.name 2 ∧ ¬ TextHolds numbersLead.goals 10 ∧
    validateLeadData listEmailLead = .ok { isValid := true, errors := [] } ∧
    ¬ EmailHolds listEmailLead.email ∧
    ¬ (∀ b : LeadBody, ∀ r, validateLeadData b = .ok r →
        ((r.isValid = true ∧ r.errors = []) ↔
          (TextHolds b.name 2 ∧ EmailHolds b.email ∧ ProgramsHold b.programs ∧
            TextHolds b.goals 10))) := by
  refine ⟨rfl, id, id, rfl, id, ?_⟩
  intro hall
  exact ((hall numbersLead _ rfl).mp ⟨rfl, rfl⟩).1

/-- C2 amended: for every lead body whose name, email and goals are each a
string or absent, `validateLeadData` answers `isValid = true` with no errors
exactly when the name has 2 or more characters, the email matches the pattern,
the programs are a list with an element and the goals have 10 or more
characters; otherwise `isValid = false`, and the errors are, in the order name,
email, programs, goals, one message for each broken rule and none for a rule
that holds.  A missing field breaks its rule.  The programs field may hold any
value. -/
theorem validateLeadData_valid_iff_rules (b : LeadBody) (hname : TextOrAbsent b.name)
    (hemail : TextOrAbsent b.email) (hgoals : TextOrAbsent b.goals) :
    ∃ r, validateLeadData b = .ok r ∧
    ((r.isValid = true ∧ r.errors = []) ↔
      (TextHolds b.name 2 ∧ EmailHolds b.email ∧ ProgramsHold b.programs ∧
        TextHolds b.goals 10)) ∧
    (r.isValid = false ↔
      ¬ (TextHolds b.name 2 ∧ EmailHolds b.email ∧ ProgramsHold b.programs ∧
        TextHolds b.goals 10)) ∧
    r.errors = failedMessages (leadChecks b) ∧
    r.errors.Sublist
      [utf16 "Name must be at least 2 characters", utf16 "Valid email is required",
       utf16 "At least one program must be selected",
       utf16 "Goals must be at least 10 characters"] ∧
    r.errors.Nodup ∧
    (utf16 "Name must be at least 2 characters" ∈ r.errors ↔ ¬ TextHolds b.name 2) ∧
    (utf16 "Valid email is required" ∈ r.errors ↔ ¬ EmailHolds b.email) ∧
    (utf16 "At least one program must be selected" ∈ r.errors ↔
      ¬ ProgramsHold b.programs) ∧
    (utf16 "Goals must be at least 10 characters" ∈ r.errors ↔ ¬ TextHolds b.goals 10) ∧
    (b.name = .undefined → ¬ TextHolds b.name 2) ∧
    (b.email = .undefined → ¬ EmailHolds b.email) ∧
    (b.programs = .undefined → ¬ ProgramsHold b.programs) ∧
    (b.goals = .undefined → ¬ TextHolds b.goals 10) := by
  have hsub := lead_errors_sublist b
  obtain ⟨h1, h2, h3, h4⟩ := lead_error_membership b
  have hvalid := lead_no_errors_iff_rules b
  refine ⟨checkedResult (leadChecks b), validateLeadData_eq b hname hemail hgoals, ?_, ?_,
    rfl, hsub, hsub.nodup (by decide), h1, h2, h3, h4, ?_, ?_, ?_, ?_⟩
  · rw [checkedResult_isValid, and_self, hvalid]
  · rw [← hvalid, ← checkedResult_isValid]
    simp
  · intro h
    simp [h, TextHolds]
  · intro h
    simp [h, EmailHolds]
  · intro h
    simp [h, ProgramsHold]
  · intro h
    simp [h, TextHolds]

/-- C3: a string passes the email check of both validation functions exactly
when it has the shape `X@Y.Z` with `X`, `Y`, `Z` non-empty runs of characters
that are neither white space nor `@`; that is, when it has no white space,
exactly one `@`, something before the `@`, and after it a `.` that is neither
the first nor the last character.  Every other string gets the error
"Valid email is required", in `validateContactData` and in
`validateLeadData`. -/
theorem email_check_accepts_exactly_the_shape (e : JsString) :
    (testEmail e = true ↔ EmailShape e) ∧
    (EmailShape e ↔ EmailDescribed e) ∧
    (missingOrNotEmail (some e) = false ↔ EmailShape e) ∧
    (missingOrNotEmailValue (.string e) = .ok false ↔ EmailShape e) ∧
    (∀ d : ContactData, d.email = some e →
      (utf16 "Valid email is required" ∈ (validateContactData d).errors ↔ ¬ EmailShape e)) ∧
    (∀ d : LeadData, d.email = some e →
      ∃ r, validateLeadData d.body = .ok r ∧
        (utf16 "Valid email is required" ∈ r.errors ↔ ¬ EmailShape e)) := by
  have hfails : EmailFails (some e) ↔ ¬ EmailShape e := by
    rw [emailFails_some_iff, ← testEmail_iff]
    simp
  have hholds : EmailHolds (.string e) ↔ EmailShape e := by
    simp [EmailHolds, testEmail_iff]
  refine ⟨testEmail_iff e, emailShape_iff_described e, ?_, ?_, ?_, ?_⟩
  · rw [← not_iff_not, ← hfails, ← missingOrNotEmail_iff]
    simp
  · rw [missingOrNotEmailValue_text (.string e) trivial, ← hholds]
    simp
  · intro d hd
    rw [(contact_error_membership d).2.1, hd, hfails]
  · intro d hd
    refine ⟨_, validateLeadData_typed d, ?_⟩
    rw [(lead_error_membership d.body).2.1]
    simp only [LeadData.body, hd, ofText]
    rw [hholds]

theorem includes_iff (s t : JsString) : includes s t = true ↔ t <:+: s := by
  unfold includes
  rw [List.any_eq_true, List.infix_iff_prefix_suffix]
  constructor
  · rintro ⟨u, hu, hp⟩
    exact ⟨u, List.isPrefixOf_iff_prefix.mp hp, (List.mem_tails u s).mp hu⟩
  · rintro ⟨u, hp, hu⟩
    exact ⟨u, (List.mem_tails u s).mpr hu, List.isPrefixOf_iff_prefix.mpr hp⟩

theorem truthyText_bonus (k : Nat) (v : Option JsString) :
    (if truthyText v = true then k else 0) = presentNonEmptyBonus k v := by
  cases v with
  | none => rfl
  | some s => cases s <;> rfl

theorem calculateLeadScore_eq (d : LeadData) (e : JsString) (he : d.email = some e) :
    calculateLeadScore d = .ok (min 10 (accumulatedScore d e)) := by
  have hp := truthyText_bonus 3 d.phone
  have hn := truthyText_bonus 4 d.ndisNumber
  have hmail : (includes e (utf16 "@gmail.com") || includes e (utf16 "@outlook.com") ||
      includes e (utf16 "@yahoo.com")) = decide (ContainsFreeProvider e) := by
    rw [Bool.eq_iff_iff]
    simp [ContainsFreeProvider, includes_iff, or_assoc]
  have hprog : (truthyList d.programs &&
      (match d.programs with
       | some items => decide (items.length > 1)
       | none => false)) = decide (programsBonus d.programs = 2) := by
    cases hd : d.programs with
    | none => simp [truthyList, programsBonus]
    | some items =>
      by_cases h : 1 < items.length <;> simp [truthyList, programsBonus, h]
  have hgoals : (truthyText d.goals &&
      (match d.goals with
       | some s => decide (s.length > 50)
       | none => false)) = decide (goalsBonus d.goals = 2) := by
    cases hd : d.goals with
    | none => simp [truthyText, goalsBonus]
    | some g =>
      by_cases h : 50 < g.length
      · have : g ≠ [] := by
          rintro rfl
          simp at h
        simp [truthyText, truthyStr, goalsBonus, h, this]
      · simp [truthyText, truthyStr, goalsBonus, h]
  have hprog2 : programsBonus d.programs = 2 ∨ programsBonus d.programs = 0 := by
    unfold programsBonus
    split
    · split <;> simp
    · simp
  have hgoals2 : goalsBonus d.goals = 2 ∨ goalsBonus d.goals = 0 := by
    unfold goalsBonus
    split
    · split <;> simp
    · simp
  unfold calculateLeadScore accumulatedScore emailBonus truthyBonus
  rw [he]
  simp only [hmail, hprog, hgoals, decide_eq_true_eq]
  rw [← hp, ← hn]
  congr 1
  by_cases c1 : ContainsFreeProvider e <;> by_cases c2 : truthyText d.phone = true <;>
    by_cases c4 : truthyText d.ndisNumber = true <;>
    by_cases c6 : d.emergencyContact.truthy = true <;>
    rcases hprog2 with c3 | c3 <;> rcases hgoals2 with c5 | c5 <;>
    simp [c1, c2, c3, c4, c5, c6, Nat.min_comm]

theorem emailBonus_cases (e : JsString) : emailBonus e = 2 ∨ emailBonus e = 3 := by
  unfold emailBonus
  split <;> simp

theorem presentNonEmptyBonus_cases (k : Nat) (v : Option JsString) :
    (PresentNonEmpty v ∧ presentNonEmptyBonus k v = k) ∨
      (¬ PresentNonEmpty v ∧ presentNonEmptyBonus k v = 0) := by
  cases v with
  | none => exact Or.inr ⟨by simp [PresentNonEmpty], rfl⟩
  | some s =>
    cases s with
    | nil => exact Or.inr ⟨by simp [PresentNonEmpty], rfl⟩
    | cons c s => exact Or.inl ⟨⟨c :: s, rfl, by simp⟩, rfl⟩

theorem programsBonus_cases (v : Option (List JsString)) :
    programsBonus v = 0 ∨ programsBonus v = 2 := by
  unfold programsBonus
  split
  · split <;> simp
  · simp

theorem goalsBonus_cases (v : Option JsString) : goalsBonus v = 0 ∨ goalsBonus v = 2 := by
  unfold goalsBonus
  split
  · split <;> simp
  · simp

theorem truthyBonus_cases (v : JsValue) : truthyBonus v = 0 ∨ truthyBonus v = 1 := by
  unfold truthyBonus
  split <;> simp

/-- C4: for every lead whose email is a string, and so for every lead that
passed `validateLeadData`, `calculateLeadScore` returns a score between 5 and
10; no combination of bonuses takes it above 10. -/
theorem calculateLeadScore_between_five_and_ten (d : LeadData)
    (h : (∃ e, d.email = some e) ∨
      ∃ r, validateLeadData d.body = .ok r ∧ r.isValid = true) :
    ∃ e s, d.email = some e ∧ calculateLeadScore d = .ok s ∧ 5 ≤ s ∧ s ≤ 10 := by
  obtain ⟨e, he⟩ : ∃ e, d.email = some e :=
    h.elim id fun ⟨r, hr, hv⟩ => valid_lead_has_email d r hr hv
  refine ⟨e, min 10 (accumulatedScore d e), he, calculateLeadScore_eq d e he, ?_,
    Nat.min_le_left _ _⟩
  have : 5 ≤ accumulatedScore d e := by
    unfold accumulatedScore
    omega
  omega

theorem calculateLeadScore_between_five_and_ten_witness :
    ((∃ e, joSmith.email = some e) ∨
      ∃ r, validateLeadData joSmith.body = .ok r ∧ r.isValid = true) ∧
      ∃ e s, joSmith.email = some e ∧ calculateLeadScore joSmith = .ok s ∧ 5 ≤ s ∧ s ≤ 10 :=
  ⟨Or.inl ⟨_, rfl⟩, calculateLeadScore_between_five_and_ten joSmith (Or.inl ⟨_, rfl⟩)⟩

/-- C5 as stated fails: a lead with the email `a@b.co` and the emergency
contact `""` has a present emergency contact, so the stated sum is 5+3+1 = 9,
but `calculateLeadScore` returns 8. -/
theorem stated_score_fails_on_blank_emergency_contact :
    blankContactLead.email = some (utf16 "a@b.co") ∧
    calculateLeadScore blankContactLead = .ok 8 ∧
    statedScore blankContactLead (utf16 "a@b.co") = 9 ∧
    ¬ (∀ (d : LeadData) (e : JsString), d.email = some e →
        calculateLeadScore d = .ok (statedScore d e)) := by
  refine ⟨rfl, rfl, by decide, ?_⟩
  intro hall
  have h := hall blankContactLead (utf16 "a@b.co") rfl
  have h8 : calculateLeadScore blankContactLead = .ok 8 := rfl
  rw [h8] at h
  have h9 : statedScore blankContactLead (utf16 "a@b.co") = 9 := by decide
  rw [h9] at h
  exact absurd (Except.ok.inj h) (by decide)

/-- C5 amended: for every lead whose email is a string the score is
`min(10, 5 + e + p + m + n + g + c)` with `e` 2 for an email containing
`@gmail.com`, `@outlook.com` or `@yahoo.com` and 3 otherwise, `p` 3 for a
present non-empty phone, `m` 2 for more than one program, `n` 4 for a present
non-empty NDIS number, `g` 2 for goals longer than 50 characters and `c` 1 for
an emergency contact that is present and truthy; the cap is applied once, to
the whole sum.  The scenario lead accumulates 16 and scores 10. -/
theorem calculateLeadScore_is_capped_sum (d : LeadData) (e : JsString)
    (he : d.email = some e) :
    calculateLeadScore d = .ok (min 10 (accumulatedScore d e)) ∧
    accumulatedScore d e =
      5 + (if ContainsFreeProvider e then 2 else 3) + presentNonEmptyBonus 3 d.phone +
        programsBonus d.programs + presentNonEmptyBonus 4 d.ndisNumber + goalsBonus d.goals +
        (if d.emergencyContact.truthy = true then 1 else 0) ∧
    accumulatedScore joSmith (utf16 "jo@gmail.com") = 5 + 2 + 3 + 2 + 4 + 0 ∧
    calculateLeadScore joSmith = .ok 10 :=
  ⟨calculateLeadScore_eq d e he, rfl, by decide, rfl⟩

theorem calculateLeadScore_is_capped_sum_witness :
    joSmith.email = some (utf16 "jo@gmail.com") ∧
    calculateLeadScore joSmith = .ok (min 10 (accumulatedScore joSmith (utf16 "jo@gmail.com"))) :=
  ⟨rfl, (calculateLeadScore_is_capped_sum joSmith (utf16 "jo@gmail.com") rfl).1⟩

/-- C10: for every lead whose email is a string, a present non-empty phone or
NDIS number makes the score exactly 10; so a score below 10 is returned only
without both, and every score is 7, 8, 9 or 10. -/
theorem calculateLeadScore_saturates (d : LeadData) (e : JsString) (he : d.email = some e) :
    (PresentNonEmpty d.phone ∨ PresentNonEmpty d.ndisNumber → calculateLeadScore d = .ok 10) ∧
    (∀ s, calculateLeadScore d = .ok s → s < 10 →
      ¬ PresentNonEmpty d.phone ∧ ¬ PresentNonEmpty d.ndisNumber) ∧
    (∃ s, calculateLeadScore d = .ok s ∧ (s = 7 ∨ s = 8 ∨ s = 9 ∨ s = 10)) := by
  have heq := calculateLeadScore_eq d e he
  have hacc : accumulatedScore d e =
      5 + emailBonus e + presentNonEmptyBonus 3 d.phone + programsBonus d.programs +
        presentNonEmptyBonus 4 d.ndisNumber + goalsBonus d.goals +
        truthyBonus d.emergencyContact := rfl
  have b1 := emailBonus_cases e
  have b2 := presentNonEmptyBonus_cases 3 d.phone
  have b3 := programsBonus_cases d.programs
  have b4 := presentNonEmptyBonus_cases 4 d.ndisNumber
  have b5 := goalsBonus_cases d.goals
  have b6 := truthyBonus_cases d.emergencyContact
  refine ⟨?_, ?_, min 10 (accumulatedScore d e), heq, ?_⟩
  · intro h
    rw [heq]
    congr 1
    rcases h with h | h
    · rcases b2 with ⟨_, b2⟩ | ⟨hn, _⟩
      · omega
      · exact absurd h hn
    · rcases b4 with ⟨_, b4⟩ | ⟨hn, _⟩
      · omega
      · exact absurd h hn
  · intro s hs hlt
    rw [heq] at hs
    have hs2 : min 10 (accumulatedScore d e) = s := Except.ok.inj hs
    constructor
    · rcases b2 with ⟨_, b2⟩ | ⟨hn, _⟩
      · omega
      · exact hn
    · rcases b4 with ⟨_, b4⟩ | ⟨hn, _⟩
      · omega
      · exact hn
  · rcases b2 with ⟨_, b2⟩ | ⟨_, b2⟩ <;> rcases b4 with ⟨_, b4⟩ | ⟨_, b4⟩ <;> omega

theorem calculateLeadScore_saturates_witness :
    joSmith.email = some (utf16 "jo@gmail.com") ∧
    (PresentNonEmpty joSmith.phone ∨ PresentNonEmpty joSmith.ndisNumber →
      calculateLeadScore joSmith = .ok 10) :=
  ⟨rfl, (calculateLeadScore_saturates joSmith (utf16 "jo@gmail.com") rfl).1⟩

theorem at_infix_iff (x rest t : JsString) (hx : ∀ c ∈ x, c ≠ 64)
    (hr : ∀ c ∈ rest, c ≠ 64) :
    (64 :: t) <:+: (x ++ 64 :: rest) ↔ t <+: rest := by
  constructor
  · rintro ⟨a, b, h⟩
    have h2 : a ++ 64 :: (t ++ b) = x ++ 64 :: rest := by simpa using h
    rcases List.append_eq_append_iff.mp h2 with ⟨a2, h3, h4⟩ | ⟨c2, h3, h4⟩
    · cases a2 with
      | nil =>
        simp only [List.nil_append, List.cons.injEq, true_and] at h4
        exact ⟨b, h4⟩
      | cons d a3 =>
        simp only [List.cons_append, List.cons.injEq] at h4
        obtain ⟨hd, -⟩ := h4
        subst hd
        exact absurd rfl (hx 64 (by simp [h3]))
    · cases c2 with
      | nil =>
        simp only [List.nil_append, List.cons.injEq, true_and] at h4
        exact ⟨b, h4.symm⟩
      | cons d c3 =>
        simp only [List.cons_append, List.cons.injEq] at h4
        obtain ⟨hd, h5⟩ := h4
        exact absurd rfl (hr 64 (by simp [h5]))
  · rintro ⟨b, h⟩
    exact ⟨x, b, by simp [← h]⟩

theorem containsFreeProvider_iff_domain_start (e : JsString) (h : EmailShape e) :
    ContainsFreeProvider e ↔ FreeDomainStart (afterAt e) := by
  obtain ⟨x, y, z, he, -, -, -, px, py, pz⟩ := h
  have hx : ∀ c ∈ x, c ≠ 64 := fun c hc => (px c hc).2
  have hr : ∀ c ∈ y ++ 46 :: z, c ≠ 64 := by
    intro c hc
    simp only [List.mem_append, List.mem_cons] at hc
    rcases hc with h | h | h
    · exact (py c h).2
    · subst h
      decide
    · exact (pz c h).2
  subst he
  rw [afterAt_append x _ hx]
  unfold ContainsFreeProvider FreeDomainStart
  have g1 : utf16 "@gmail.com" = 64 :: utf16 "gmail.com" := by decide
  have g2 : utf16 "@outlook.com" = 64 :: utf16 "outlook.com" := by decide
  have g3 : utf16 "@yahoo.com" = 64 :: utf16 "yahoo.com" := by decide
  rw [g1, g2, g3, at_infix_iff x _ _ hx hr, at_infix_iff x _ _ hx hr,
    at_infix_iff x _ _ hx hr]

theorem accumulatedScore_no_other_bonus (d : LeadData) (e : JsString) (hb : NoOtherBonus d) :
    accumulatedScore d e = 5 + emailBonus e := by
  obtain ⟨h1, h2, h3, h4, h5⟩ := hb
  have hp : programsBonus d.programs = 0 := by
    cases hd : d.programs with
    | none => rfl
    | some items =>
      have := h2 items hd
      simp only [programsBonus]
      rw [if_neg (by omega)]
  have hg : goalsBonus d.goals = 0 := by
    cases hd : d.goals with
    | none => rfl
    | some g =>
      have := h4 g hd
      simp only [goalsBonus]
      rw [if_neg (by omega)]
  have hphone : presentNonEmptyBonus 3 d.phone = 0 :=
    (presentNonEmptyBonus_cases 3 d.phone).elim (fun h => absurd h.1 h1) fun h => h.2
  have hndis : presentNonEmptyBonus 4 d.ndisNumber = 0 :=
    (presentNonEmptyBonus_cases 4 d.ndisNumber).elim (fun h => absurd h.1 h3) fun h => h.2
  unfold accumulatedScore
  rw [hphone, hndis, h5, hp, hg]
  rfl

theorem noOtherBonus_evilLead : NoOtherBonus evilLead :=
  ⟨by simp [PresentNonEmpty, evilLead], fun _ h => absurd h (by simp [evilLead]),
    by simp [PresentNonEmpty, evilLead], fun _ h => absurd h (by simp [evilLead]), rfl⟩

/-- C6 as stated fails: the lead whose only field is the email
`a@gmail.com.evil.com` passes the pattern and has no other bonus, its domain
`gmail.com.evil.com` is none of the three, and yet `calculateLeadScore`
returns 7, not 8. -/
theorem evil_domain_scores_seven :
    evilLead.email = some (utf16 "a@gmail.com.evil.com") ∧
    testEmail (utf16 "a@gmail.com.evil.com") = true ∧
    NoOtherBonus evilLead ∧
    afterAt (utf16 "a@gmail.com.evil.com") = utf16 "gmail.com.evil.com" ∧
    ¬ FreeDomain (afterAt (utf16 "a@gmail.com.evil.com")) ∧
    calculateLeadScore evilLead = .ok 7 := by
  refine ⟨rfl, by decide, noOtherBonus_evilLead, by decide, by decide, rfl⟩

/-- C6 amended: for every lead whose email passes the validation pattern and
that has no phone, at most one program, no NDIS number, goals of at most 50
characters and no emergency contact, `calculateLeadScore` returns 7 if the
text after the `@` starts with `gmail.com`, `outlook.com` or `yahoo.com`
(which is when the email contains `@gmail.com`, `@outlook.com` or
`@yahoo.com`), and 8 otherwise; in particular it returns 7 when the domain
equals one of the three. -/
theorem email_bonus_by_domain_start (d : LeadData) (e : JsString) (he : d.email = some e)
    (hv : testEmail e = true) (hb : NoOtherBonus d) :
    calculateLeadScore d = .ok (if FreeDomainStart (afterAt e) then 7 else 8) ∧
    (FreeDomainStart (afterAt e) ↔ ContainsFreeProvider e) ∧
    (FreeDomain (afterAt e) → calculateLeadScore d = .ok 7) := by
  have hiff := containsFreeProvider_iff_domain_start e ((testEmail_iff e).mp hv)
  have hscore : calculateLeadScore d = .ok (if FreeDomainStart (afterAt e) then 7 else 8) := by
    rw [calculateLeadScore_eq d e he, accumulatedScore_no_other_bonus d e hb]
    unfold emailBonus
    by_cases hc : ContainsFreeProvider e
    · rw [if_pos hc, if_pos (hiff.mp hc)]
      rfl
    · rw [if_neg hc, if_neg (mt hiff.mpr hc)]
      rfl
  refine ⟨hscore, hiff.symm, ?_⟩
  intro hfree
  have hstart : FreeDomainStart (afterAt e) := by
    rcases hfree with h | h | h
    · exact Or.inl (h ▸ List.prefix_refl _)
    · exact Or.inr (Or.inl (h ▸ List.prefix_refl _))
    · exact Or.inr (Or.inr (h ▸ List.prefix_refl _))
  rw [hscore, if_pos hstart]

theorem email_bonus_by_domain_start_witness :
    evilLead.email = some (utf16 "a@gmail.com.evil.com") ∧
    testEmail (utf16 "a@gmail.com.evil.com") = true ∧
    NoOtherBonus evilLead ∧
    calculateLeadScore evilLead =
      .ok (if FreeDomainStart (afterAt (utf16 "a@gmail.com.evil.com")) then 7 else 8) :=
  ⟨rfl, by decide, noOtherBonus_evilLead,
    (email_bonus_by_domain_start evilLead (utf16 "a@gmail.com.evil.com") rfl (by decide)
      noOtherBonus_evilLead).1⟩

/-! ## The handlers -/

theorem post_ne_options : (utf16 "POST" == utf16 "OPTIONS") = false := by decide

theorem setCorsHeaders_fresh : setCorsHeaders {} = { headers := corsHeaders } := rfl

theorem submitContact_options (env : Env) (store : JsValue → StoreOutcome)
    (body : Option ContactData) :
    submitContact env store { method := utf16 "OPTIONS", body := body } =
      ⟨{ statusCode := 200, headers := [], body := some corsObject }, {}⟩ := rfl

theorem submitLead_options (env : Env) (store : JsValue → StoreOutcome)
    (body : Option LeadData) :
    submitLead env store { method := utf16 "OPTIONS", body := body } =
      ⟨{ statusCode := 200, headers := [], body := some corsObject }, {}⟩ := rfl

theorem health_options (env : Env) (body : Option Unit) :
    health env { method := utf16 "OPTIONS", body := body } =
      ⟨{ statusCode := 200, headers := [], body := some corsObject }, {}⟩ := rfl

theorem submitContact_other (env : Env) (store : JsValue → StoreOutcome)
    (req : Request ContactData) (h1 : req.method ≠ utf16 "OPTIONS")
    (h2 : req.method ≠ utf16 "POST") :
    submitContact env store req =
      ⟨{ statusCode := 405, headers := corsHeaders, body := some methodNotAllowedBody }, {}⟩ := by
  unfold submitContact
  simp only [beq_iff_eq, h1, if_false, bne_iff_ne, ne_eq, h2, not_false_eq_true, if_true,
    setCorsHeaders_fresh]
  rfl

theorem submitLead_other (env : Env) (store : JsValue → StoreOutcome)
    (req : Request LeadData) (h1 : req.method ≠ utf16 "OPTIONS")
    (h2 : req.method ≠ utf16 "POST") :
    submitLead env store req =
      ⟨{ statusCode := 405, headers := corsHeaders, body := some methodNotAllowedBody }, {}⟩ := by
  unfold submitLead
  simp only [beq_iff_eq, h1, if_false, bne_iff_ne, ne_eq, h2, not_false_eq_true, if_true,
    setCorsHeaders_fresh]
  rfl

theorem submitContact_post (env : Env) (store : JsValue → StoreOutcome)
    (body : Option ContactData) :
    submitContact env store { method := utf16 "POST", body := body } =
      match contactAttempt env store { method := utf16 "POST", body := body }
          { headers := corsHeaders } {} with
      | (.ok answered, world) => ⟨answered, world⟩
      | (.error error, world) =>
        ⟨{ statusCode := 500, headers := corsHeaders, body := some internalErrorBody },
          consoleError (utf16 "Error saving contact:") error world⟩ := by
  unfold submitContact
  simp only [post_ne_options, Bool.false_eq_true, if_false, bne_self_eq_false,
    setCorsHeaders_fresh]
  rfl

theorem submitLead_post (env : Env) (store : JsValue → StoreOutcome)
    (body : Option LeadData) :
    submitLead env store { method := utf16 "POST", body := body } =
      match leadAttempt env store { method := utf16 "POST", body := body }
          { headers := corsHeaders } {} with
      | (.ok answered, world) => ⟨answered, world⟩
      | (.error error, world) =>
        ⟨{ statusCode := 500, headers := corsHeaders, body := some internalErrorBody },
          consoleError (utf16 "Error saving lead:") error world⟩ := by
  unfold submitLead
  simp only [post_ne_options, Bool.false_eq_true, if_false, bne_self_eq_false,
    setCorsHeaders_fresh]
  rfl

theorem submitContact_no_body (env : Env) (store : JsValue → StoreOutcome) :
    submitContact env store { method := utf16 "POST", body := none } =
      ⟨{ statusCode := 500, headers := corsHeaders, body := some internalErrorBody },
        { logged := [(utf16 "Error saving contact:", .typeError)] }⟩ := by
  rw [submitContact_post]
  rfl

theorem submitContact_invalid (env : Env) (store : JsValue → StoreOutcome) (d : ContactData)
    (h : (validateContactData d).isValid = false) :
    submitContact env store { method := utf16 "POST", body := some d } =
      ⟨{ statusCode := 400, headers := corsHeaders,
         body := some (validationFailedBody (validateContactData d).errors) }, {}⟩ := by
  rw [submitContact_post]
  simp only [contactAttempt, h]
  rfl

theorem submitContact_created (env : Env) (store : JsValue → StoreOutcome) (d : ContactData)
    (h : (validateContactData d).isValid = true) (id : JsString)
    (hs : store (contactPage env d) = .created id) :
    submitContact env store { method := utf16 "POST", body := some d } =
      ⟨{ statusCode := 200, headers := corsHeaders,
         body := some (obj [("success", .bool true),
           ("message", str "Message sent successfully! We'll respond within 24 hours."),
           ("leadId", .string id)]) },
        { calls := [contactPage env d] }⟩ := by
  rw [submitContact_post]
  simp only [contactAttempt, h, pagesCreate, hs]
  rfl

theorem submitContact_failed (env : Env) (store : JsValue → StoreOutcome) (d : ContactData)
    (h : (validateContactData d).isValid = true) (error : JsValue)
    (hs : store (contactPage env d) = .failed error) :
    submitContact env store { method := utf16 "POST", body := some d } =
      ⟨{ statusCode := 500, headers := corsHeaders, body := some internalErrorBody },
        { calls := [contactPage env d],
          logged := [(utf16 "Error saving contact:", .storeError error)] }⟩ := by
  rw [submitContact_post]
  simp only [contactAttempt, h, pagesCreate, hs]
  rfl

theorem submitLead_no_body (env : Env) (store : JsValue → StoreOutcome) :
    submitLead env store { method := utf16 "POST", body := none } =
      ⟨{ statusCode := 500, headers := corsHeaders, body := some internalErrorBody },
        { logged := [(utf16 "Error saving lead:", .typeError)] }⟩ := by
  rw [submitLead_post]
  rfl

theorem submitLead_invalid (env : Env) (store : JsValue → StoreOutcome) (d : LeadData)
    (r : ValidationResult) (hr : validateLeadData d.body = .ok r) (h : r.isValid = false) :
    submitLead env store { method := utf16 "POST", body := some d } =
      ⟨{ statusCode := 400, headers := corsHeaders,
         body := some (validationFailedBody r.errors) }, {}⟩ := by
  rw [submitLead_post]
  simp only [leadAttempt, hr, h]
  rfl

theorem submitLead_created (env : Env) (store : JsValue → StoreOutcome) (d : LeadData)
    (r : ValidationResult) (hr : validateLeadData d.body = .ok r) (h : r.isValid = true)
    (score : Nat)
    (hscore : calculateLeadScore d = .ok score) (id : JsString)
    (hs : store (leadPage env d score) = .created id) :
    submitLead env store { method := utf16 "POST", body := some d } =
      ⟨{ statusCode := 200, headers := corsHeaders,
         body := some (obj [("success", .bool true),
           ("message",
             str "Application submitted successfully! We'll contact you within 24 hours."),
           ("leadId", .string id), ("leadScore", .number score)]) },
        { calls := [leadPage env d score] }⟩ := by
  rw [submitLead_post]
  simp only [leadAttempt, hr, h, hscore, pagesCreate, hs]
  rfl

theorem submitLead_failed (env : Env) (store : JsValue → StoreOutcome) (d : LeadData)
    (r : ValidationResult) (hr : validateLeadData d.body = .ok r) (h : r.isValid = true)
    (score : Nat)
    (hscore : calculateLeadScore d = .ok score) (error : JsValue)
    (hs : store (leadPage env d score) = .failed error) :
    submitLead env store { method := utf16 "POST", body := some d } =
      ⟨{ statusCode := 500, headers := corsHeaders, body := some internalErrorBody },
        { calls := [leadPage env d score],
          logged := [(utf16 "Error saving lead:", .storeError error)] }⟩ := by
  rw [submitLead_post]
  simp only [leadAttempt, hr, h, hscore, pagesCreate, hs]
  rfl

theorem valid_lead_has_score (d : LeadData) (r : ValidationResult)
    (hr : validateLeadData d.body = .ok r) (h : r.isValid = true) :
    ∃ score, calculateLeadScore d = .ok score := by
  obtain ⟨e, he⟩ := valid_lead_has_email d r hr h
  exact ⟨_, calculateLeadScore_eq d e he⟩

/-- The calls a contact request leads to: one, for a valid POST body. -/
theorem submitContact_calls (env : Env) (store : JsValue → StoreOutcome)
    (req : Request ContactData) :
    (submitContact env store req).world.calls =
      match req.body with
      | some d =>
        if req.method = utf16 "POST" ∧ (validateContactData d).isValid = true then
          [contactPage env d]
        else []
      | none => [] := by
  obtain ⟨method, body⟩ := req
  by_cases ho : method = utf16 "OPTIONS"
  · subst ho
    rw [submitContact_options]
    cases body with
    | none => rfl
    | some d => simp [show utf16 "OPTIONS" ≠ utf16 "POST" by decide]
  by_cases hp : method = utf16 "POST"
  · subst hp
    cases body with
    | none => rw [submitContact_no_body]
    | some d =>
      cases hv : (validateContactData d).isValid with
      | false =>
        rw [submitContact_invalid env store d hv]
        simp [hv]
      | true =>
        cases hs : store (contactPage env d) with
        | created id =>
          rw [submitContact_created env store d hv id hs]
          simp [hv]
        | failed error =>
          rw [submitContact_failed env store d hv error hs]
          simp [hv]
  · rw [submitContact_other env store _ ho hp]
    cases body with
    | none => rfl
    | some d => simp [hp]

/-- The calls a lead request leads to: one, for a valid POST body. -/
theorem submitLead_calls (env : Env) (store : JsValue → StoreOutcome)
    (req : Request LeadData) :
    (submitLead env store req).world.calls =
      match req.body, calculateLeadScore <$> req.body with
      | some d, some (.ok score) =>
        if req.method = utf16 "POST" ∧
            (checkedResult (leadChecks d.body)).isValid = true then
          [leadPage env d score]
        else []
      | _, _ => [] := by
  obtain ⟨method, body⟩ := req
  by_cases ho : method = utf16 "OPTIONS"
  · subst ho
    rw [submitLead_options]
    cases body with
    | none => rfl
    | some d =>
      cases hc : calculateLeadScore d <;>
        simp [hc, show utf16 "OPTIONS" ≠ utf16 "POST" by decide]
  by_cases hp : method = utf16 "POST"
  · subst hp
    cases body with
    | none => rw [submitLead_no_body]
    | some d =>
      have hr := validateLeadData_typed d
      cases hv : (checkedResult (leadChecks d.body)).isValid with
      | false =>
        rw [submitLead_invalid env store d _ hr hv]
        cases hc : calculateLeadScore d <;> simp [hc, hv]
      | true =>
        obtain ⟨score, hscore⟩ := valid_lead_has_score d _ hr hv
        cases hs : store (leadPage env d score) with
        | created id =>
          rw [submitLead_created env store d _ hr hv score hscore id hs]
          simp [hv, hscore]
        | failed error =>
          rw [submitLead_failed env store d _ hr hv score hscore error hs]
          simp [hv, hscore]
  · rw [submitLead_other env store _ ho hp]
    cases body with
    | none => rfl
    | some d => cases hc : calculateLeadScore d <;> simp [hc, hp]

/-- C7: each submission handler issues at most one create call, and one only
for a POST whose body passed validation.  An OPTIONS request, any other
non-POST request and a POST whose body fails validation (answered 400 with
the validation errors as details) lead to no call; a failed call is the only
one issued. -/
theorem submission_handlers_call_store_at_most_once (env : Env)
    (store : JsValue → StoreOutcome) (creq : Request ContactData) (lreq : Request LeadData) :
    ((submitContact env store creq).world.calls.length ≤ 1 ∧
      ((submitContact env store creq).world.calls ≠ [] →
        creq.method = utf16 "POST" ∧
          ∃ d, creq.body = some d ∧ (validateContactData d).isValid = true) ∧
      (creq.method = utf16 "OPTIONS" → (submitContact env store creq).world.calls = []) ∧
      (creq.method ≠ utf16 "POST" → (submitContact env store creq).world.calls = []) ∧
      (∀ d, creq.method = utf16 "POST" → creq.body = some d →
        (validateContactData d).isValid = false →
          (submitContact env store creq).res.statusCode = 400 ∧
          (submitContact env store creq).res.body =
            some (obj [("success", .bool false), ("error", str "Validation failed"),
              ("details", .array ((validateContactData d).errors.map .string))]) ∧
          (submitContact env store creq).world.calls = []) ∧
      (∀ d error, creq.method = utf16 "POST" → creq.body = some d →
        (validateContactData d).isValid = true →
        store (contactPage env d) = .failed error →
          (submitContact env store creq).world.calls = [contactPage env d])) ∧
    ((submitLead env store lreq).world.calls.length ≤ 1 ∧
      ((submitLead env store lreq).world.calls ≠ [] →
        lreq.method = utf16 "POST" ∧
          ∃ d r, lreq.body = some d ∧ validateLeadData d.body = .ok r ∧ r.isValid = true) ∧
      (lreq.method = utf16 "OPTIONS" → (submitLead env store lreq).world.calls = []) ∧
      (lreq.method ≠ utf16 "POST" → (submitLead env store lreq).world.calls = []) ∧
      (∀ d r, lreq.method = utf16 "POST" → lreq.body = some d →
        validateLeadData d.body = .ok r → r.isValid = false →
          (submitLead env store lreq).res.statusCode = 400 ∧
          (submitLead env store lreq).res.body =
            some (obj [("success", .bool false), ("error", str "Validation failed"),
              ("details", .array (r.errors.map .string))]) ∧
          (submitLead env store lreq).world.calls = []) ∧
      (∀ d r score error, lreq.method = utf16 "POST" → lreq.body = some d →
        validateLeadData d.body = .ok r → r.isValid = true →
        calculateLeadScore d = .ok score →
        store (leadPage env d score) = .failed error →
          (submitLead env store lreq).world.calls = [leadPage env d score])) := by
  constructor
  · have hcalls := submitContact_calls env store creq
    obtain ⟨method, body⟩ := creq
    refine ⟨?_, ?_, ?_, ?_, ?_, ?_⟩
    · rw [hcalls]
      cases body with
      | none => simp
      | some d =>
        simp only
        split <;> simp
    · intro hne
      rw [hcalls] at hne
      cases body with
      | none => exact absurd rfl hne
      | some d =>
        simp only at hne
        split at hne
        · rename_i h
          exact ⟨h.1, d, rfl, h.2⟩
        · exact absurd rfl hne
    · intro h
      simp only at h
      subst h
      rw [submitContact_options]
    · intro h
      rw [hcalls]
      cases body with
      | none => rfl
      | some d =>
        simp only at h
        simp [h]
    · intro d hm hb hv
      simp only at hm hb
      subst hm hb
      rw [submitContact_invalid env store d hv]
      exact ⟨rfl, rfl, rfl⟩
    · intro d error hm hb hv hs
      simp only at hm hb
      subst hm hb
      rw [submitContact_failed env store d hv error hs]
  · have hcalls := submitLead_calls env store lreq
    obtain ⟨method, body⟩ := lreq
    refine ⟨?_, ?_, ?_, ?_, ?_, ?_⟩
    · rw [hcalls]
      cases body with
      | none => simp
      | some d =>
        cases hc : calculateLeadScore d with
        | error e => simp [hc]
        | ok score =>
          simp only [Option.map_eq_map, Option.map_some', hc]
          split <;> simp
    · intro hne
      rw [hcalls] at hne
      cases body with
      | none => exact absurd rfl hne
      | some d =>
        cases hc : calculateLeadScore d with
        | error e =>
          simp [hc] at hne
        | ok score =>
          simp only [Option.map_eq_map, Option.map_some', hc] at hne
          split at hne
          · rename_i h
            exact ⟨h.1, d, _, rfl, validateLeadData_typed d, h.2⟩
          · exact absurd rfl hne
    · intro h
      simp only at h
      subst h
      rw [submitLead_options]
    · intro h
      rw [hcalls]
      cases body with
      | none => rfl
      | some d =>
        simp only at h
        cases hc : calculateLeadScore d <;> simp [hc, h]
    · intro d r hm hb hr hv
      simp only at hm hb
      subst hm hb
      rw [submitLead_invalid env store d r hr hv]
      exact ⟨rfl, rfl, rfl⟩
    · intro d r score error hm hb hr hv hscore hs
      simp only at hm hb
      subst hm hb
      rw [submitLead_failed env store d r hr hv score hscore error hs]

theorem health_headers (env : Env) (req : Request Unit) (h : req.method ≠ utf16 "OPTIONS") :
    (health env req).res.headers = corsHeaders := by
  unfold health
  simp only [beq_iff_eq, h, if_false, setCorsHeaders_fresh]
  split <;> rfl

theorem submitContact_headers (env : Env) (store : JsValue → StoreOutcome)
    (req : Request ContactData) (h : req.method ≠ utf16 "OPTIONS") :
    (submitContact env store req).res.headers = corsHeaders := by
  obtain ⟨method, body⟩ := req
  by_cases hp : method = utf16 "POST"
  · subst hp
    cases body with
    | none => rw [submitContact_no_body]
    | some d =>
      cases hv : (validateContactData d).isValid with
      | false => rw [submitContact_invalid env store d hv]
      | true =>
        cases hs : store (contactPage env d) with
        | created id => rw [submitContact_created env store d hv id hs]
        | failed error => rw [submitContact_failed env store d hv error hs]
  · rw [submitContact_other env store _ h hp]

theorem submitLead_headers (env : Env) (store : JsValue → StoreOutcome)
    (req : Request LeadData) (h : req.method ≠ utf16 "OPTIONS") :
    (submitLead env store req).res.headers = corsHeaders := by
  obtain ⟨method, body⟩ := req
  by_cases hp : method = utf16 "POST"
  · subst hp
    cases body with
    | none => rw [submitLead_no_body]
    | some d =>
      have hr := validateLeadData_typed d
      cases hv : (checkedResult (leadChecks d.body)).isValid with
      | false => rw [submitLead_invalid env store d _ hr hv]
      | true =>
        obtain ⟨score, hscore⟩ := valid_lead_has_score d _ hr hv
        cases hs : store (leadPage env d score) with
        | created id => rw [submitLead_created env store d _ hr hv score hscore id hs]
        | failed error => rw [submitLead_failed env store d _ hr hv score hscore error hs]
  · rw [submitLead_other env store _ h hp]

/-- C8, the code at an OPTIONS request: each of the three handlers answers 200
with the CORS names and values as the JSON body and with no header set, while
on a GET (health) or POST (submissions) the same handler sets the three CORS
headers. -/
theorem preflight_answer_sets_no_header (env : Env) (store : JsValue → StoreOutcome)
    (hbody : Option Unit) (cbody : Option ContactData) (lbody : Option LeadData) :
    ((health env { method := utf16 "OPTIONS", body := hbody }).res.statusCode = 200 ∧
      (health env { method := utf16 "OPTIONS", body := hbody }).res.headers = [] ∧
      (health env { method := utf16 "OPTIONS", body := hbody }).res.body =
        some (obj [("Access-Control-Allow-Origin", str "*"),
          ("Access-Control-Allow-Methods", str "GET, POST, OPTIONS"),
          ("Access-Control-Allow-Headers", str "Content-Type")])) ∧
    ((submitContact env store { method := utf16 "OPTIONS", body := cbody }).res.statusCode = 200 ∧
      (submitContact env store { method := utf16 "OPTIONS", body := cbody }).res.headers = [] ∧
      (submitContact env store { method := utf16 "OPTIONS", body := cbody }).res.body =
        some (obj [("Access-Control-Allow-Origin", str "*"),
          ("Access-Control-Allow-Methods", str "GET, POST, OPTIONS"),
          ("Access-Control-Allow-Headers", str "Content-Type")])) ∧
    ((submitLead env store { method := utf16 "OPTIONS", body := lbody }).res.statusCode = 200 ∧
      (submitLead env store { method := utf16 "OPTIONS", body := lbody }).res.headers = [] ∧
      (submitLead env store { method := utf16 "OPTIONS", body := lbody }).res.body =
        some (obj [("Access-Control-Allow-Origin", str "*"),
          ("Access-Control-Allow-Methods", str "GET, POST, OPTIONS"),
          ("Access-Control-Allow-Headers", str "Content-Type")])) ∧
    ((health env { method := utf16 "GET", body := hbody }).res.headers =
        [(utf16 "Access-Control-Allow-Origin", utf16 "*"),
         (utf16 "Access-Control-Allow-Methods", utf16 "GET, POST, OPTIONS"),
         (utf16 "Access-Control-Allow-Headers", utf16 "Content-Type")]) ∧
    ((submitContact env store { method := utf16 "POST", body := cbody }).res.headers =
        [(utf16 "Access-Control-Allow-Origin", utf16 "*"),
         (utf16 "Access-Control-Allow-Methods", utf16 "GET, POST, OPTIONS"),
         (utf16 "Access-Control-Allow-Headers", utf16 "Content-Type")]) ∧
    ((submitLead env store { method := utf16 "POST", body := lbody }).res.headers =
        [(utf16 "Access-Control-Allow-Origin", utf16 "*"),
         (utf16 "Access-Control-Allow-Methods", utf16 "GET, POST, OPTIONS"),
         (utf16 "Access-Control-Allow-Headers", utf16 "Content-Type")]) :=
  ⟨⟨rfl, rfl, rfl⟩, ⟨rfl, rfl, rfl⟩, ⟨rfl, rfl, rfl⟩,
    health_headers env _ (show utf16 "GET" ≠ utf16 "OPTIONS" by decide),
    submitContact_headers env store _ (show utf16 "POST" ≠ utf16 "OPTIONS" by decide),
    submitLead_headers env store _ (show utf16 "POST" ≠ utf16 "OPTIONS" by decide)⟩

/-- C9: a POST whose body passes validation and whose store call fails is
answered 500 with the fixed body `{success:false, error:'Internal server
error', message:'Something went wrong. Please try again or contact us
directly.'}`, in submit-contact and in submit-lead, whatever the error; two
runs that differ only in the error the store raises get the same response. -/
theorem store_failure_answers_fixed_500 (env : Env) :
    (∀ (store : JsValue → StoreOutcome) (c : ContactData) (error : JsValue),
      (validateContactData c).isValid = true →
      store (contactPage env c) = .failed error →
        (submitContact env store { method := utf16 "POST", body := some c }).res =
          internalErrorResponse) ∧
    (∀ (store : JsValue → StoreOutcome) (l : LeadData) (r : ValidationResult) (score : Nat)
        (error : JsValue),
      validateLeadData l.body = .ok r → r.isValid = true →
      calculateLeadScore l = .ok score →
      store (leadPage env l score) = .failed error →
        (submitLead env store { method := utf16 "POST", body := some l }).res =
          internalErrorResponse) ∧
    (∀ (store other : JsValue → StoreOutcome) (c : ContactData) (error error2 : JsValue),
      (validateContactData c).isValid = true →
      store (contactPage env c) = .failed error →
      other (contactPage env c) = .failed error2 →
        (submitContact env store { method := utf16 "POST", body := some c }).res =
          (submitContact env other { method := utf16 "POST", body := some c }).res) ∧
    (∀ (store other : JsValue → StoreOutcome) (l : LeadData) (r : ValidationResult)
        (score : Nat) (error error2 : JsValue),
      validateLeadData l.body = .ok r → r.isValid = true →
      calculateLeadScore l = .ok score →
      store (leadPage env l score) = .failed error →
      other (leadPage env l score) = .failed error2 →
        (submitLead env store { method := utf16 "POST", body := some l }).res =
          (submitLead env other { method := utf16 "POST", body := some l }).res) := by
  have contact : ∀ (s : JsValue → StoreOutcome) (c : ContactData) (error : JsValue),
      (validateContactData c).isValid = true → s (contactPage env c) = .failed error →
      (submitContact env s { method := utf16 "POST", body := some c }).res =
        internalErrorResponse := by
    intro s c error hc herr
    rw [submitContact_failed env s c hc error herr]
    rfl
  have lead : ∀ (s : JsValue → StoreOutcome) (l : LeadData) (r : ValidationResult)
      (score : Nat) (error : JsValue),
      validateLeadData l.body = .ok r → r.isValid = true →
      calculateLeadScore l = .ok score → s (leadPage env l score) = .failed error →
      (submitLead env s { method := utf16 "POST", body := some l }).res =
        internalErrorResponse := by
    intro s l r score error hr hv hscore herr
    rw [submitLead_failed env s l r hr hv score hscore error herr]
    rfl
  refine ⟨contact, lead, ?_, ?_⟩
  · intro store other c error error2 hc h1 h2
    exact (contact store c error hc h1).trans (contact other c error2 hc h2).symm
  · intro store other l r score error error2 hr hv hscore h1 h2
    exact (lead store l r score error hr hv hscore h1).trans
      (lead other l r score error2 hr hv hscore h2).symm

theorem store_failure_answers_fixed_500_witness :
    (validateContactData janeContact).isValid = true ∧
    rejectingStore (contactPage epochEnv janeContact) = .failed (str "unauthorized") ∧
    (submitContact epochEnv rejectingStore
        { method := utf16 "POST", body := some janeContact }).res = internalErrorResponse ∧
    validateLeadData joSmith.body = .ok { isValid := true, errors := [] } ∧
    calculateLeadScore joSmith = .ok 10 ∧
    rejectingStore (leadPage epochEnv joSmith 10) = .failed (str "unauthorized") ∧
    (submitLead epochEnv rejectingStore
        { method := utf16 "POST", body := some joSmith }).res = internalErrorResponse :=
  have h := store_failure_answers_fixed_500 epochEnv
  ⟨by decide, rfl, h.1 rejectingStore janeContact _ (by decide) rfl, rfl, rfl, rfl,
    h.2.1 rejectingStore joSmith _ 10 _ rfl rfl rfl rfl⟩

/-! ## The theorems at concrete inputs -/

theorem validateContactData_reports_failed_checks_witness :
    (validateContactData janeContact).errors = failedMessages (contactChecks janeContact) ∧
    ((validateContactData janeContact).isValid = true ↔
      (validateContactData janeContact).errors = []) :=
  ⟨(validateContactData_reports_failed_checks janeContact).1,
    (validateContactData_reports_failed_checks janeContact).2.2.2.2.2.2.1⟩

theorem validateLeadData_valid_iff_rules_witness :
    TextOrAbsent joSmith.body.name ∧ TextOrAbsent joSmith.body.email ∧
    TextOrAbsent joSmith.body.goals ∧
    ∃ r, validateLeadData joSmith.body = .ok r ∧
      ((r.isValid = true ∧ r.errors = []) ↔
        (TextHolds joSmith.body.name 2 ∧ EmailHolds joSmith.body.email ∧
          ProgramsHold joSmith.body.programs ∧ TextHolds joSmith.body.goals 10)) :=
  match validateLeadData_valid_iff_rules joSmith.body trivial trivial trivial with
  | ⟨r, hr, hiff, _⟩ => ⟨trivial, trivial, trivial, r, hr, hiff⟩

theorem email_check_accepts_exactly_the_shape_witness :
    EmailShape (utf16 "jo@gmail.com") ∧ EmailDescribed (utf16 "jo@gmail.com") ∧
    ¬ EmailShape (utf16 "bad-email") :=
  ⟨(email_check_accepts_exactly_the_shape (utf16 "jo@gmail.com")).1.mp (by decide),
    (email_check_accepts_exactly_the_shape (utf16 "jo@gmail.com")).2.1.mp
      ((email_check_accepts_exactly_the_shape (utf16 "jo@gmail.com")).1.mp (by decide)),
    fun h => absurd ((email_check_accepts_exactly_the_shape (utf16 "bad-email")).1.mpr h)
      (by decide)⟩

theorem submission_handlers_call_store_at_most_once_witness :
    (submitContact epochEnv rejectingStore
        { method := utf16 "POST", body := some janeContact }).world.calls =
      [contactPage epochEnv janeContact] ∧
    (submitLead epochEnv rejectingStore
        { method := utf16 "OPTIONS", body := some joSmith }).world.calls = [] :=
  have h := submission_handlers_call_store_at_most_once epochEnv rejectingStore
    { method := utf16 "POST", body := some janeContact }
    { method := utf16 "OPTIONS", body := some joSmith }
  ⟨h.1.2.2.2.2.2 janeContact (str "unauthorized") rfl rfl (by decide) rfl, h.2.2.2.1 rfl⟩

end Cssa
